import Mathlib

/-!
# Process watchdog: the Monitor state machine

A shallow embedding of `monitor_mutex.go`: the per-process `Monitor`, its log
health check, the start / terminate operations on the child process, and the
control loop `Run`.

Conventions of the embedding.

* `time.Time` is an integer number of nanoseconds on one clock, counted from
  Go's zero time, so `IsZero` is `= 0` and `After` is `>`.  `time.Duration` is an
  integer number of nanoseconds; `Time.Sub` saturates at the 64-bit bounds as in
  Go, and products of durations wrap to 64 bits.
* Every answer of the operating system (the `os.Stat` result, the results of
  `Signal`, `Wait` and `Start`, the readings of the clock) is an explicit
  argument of the function that asks for it.
* `World` is the part of the operating system the Monitor acts on: the children
  it has spawned that are still live, and a record of the system calls made.
* `fmt.Printf` output is not part of the state; where a property speaks about a
  message, the message is returned next to the state.
-/

namespace Watchdog

/-! ## Time -/

/-! Instants (`time.Time`) and durations (`time.Duration`) are both of type
`Int`, in nanoseconds. -/

/-- The constant `time.Second`. -/
def Second : Int := 1000000000

/-- Largest `time.Duration` (2^63 - 1 ns). -/
def maxDuration : Int := 9223372036854775807

/-- Smallest `time.Duration` (-2^63 ns). -/
def minDuration : Int := -9223372036854775808

/-- Two's-complement wrap of an integer to 64 bits (Go `int64` arithmetic). -/
def wrap64 (x : Int) : Int :=
  (x + 9223372036854775808) % 18446744073709551616 - 9223372036854775808

/-- `Time.Sub`: the difference `t - u`, saturated to the range of `Duration`. -/
def timeSub (t u : Int) : Int :=
  if t - u > maxDuration then maxDuration
  else if t - u < minDuration then minDuration
  else t - u

/-- `time.Since(t)` evaluated when the clock reads `now`. -/
def timeSince (now t : Int) : Int := timeSub now t

/-! ## Data model -/

/-- The `*exec.Cmd` held in `Monitor.process`.  `proc` is its `Process` field:
`none` until `Start` has succeeded, then the identity of the child. -/
structure Cmd where
  proc : Option Nat
deriving DecidableEq, Repr

/-- The `Monitor` struct (the mutex is omitted: the control loop is its only
user; `cancelled` is the state of `ctx`, set by `cancel`). -/
structure Monitor where
  command : String
  logFile : String
  timeout : Int
  interval : Int
  process : Option Cmd
  lastModTime : Int
  lastLogSize : Int
  cancelled : Bool
  retryCount : Int
  maxRetries : Int
  lastFailure : Int
deriving DecidableEq, Repr

/-- Constructor `NewMonitor`: the two durations are `int * time.Second` in
64-bit arithmetic. -/
def NewMonitor (command logFile : String) (timeout interval : Int) : Monitor :=
  { command := command
    logFile := logFile
    timeout := wrap64 (timeout * Second)
    interval := wrap64 (interval * Second)
    process := none
    lastModTime := 0
    lastLogSize := 0
    cancelled := false
    retryCount := 0
    maxRetries := 3
    lastFailure := 0 }

/-- Signals the Monitor sends to a child. -/
inductive Signal where
  | sigterm
  | sigkill
  | sigzero
deriving DecidableEq, Repr

/-- The operating-system side: `live` lists the children spawned by this Monitor
that are still live, `nextPid` is the identity the next spawned child gets,
`attempts` counts the calls of `Start`, `signals` records every call of
`Signal` or `Kill` (latest first, whether or not the call succeeded) and
`waits` counts the calls of `Wait`. -/
structure World where
  live : List Nat
  nextPid : Nat
  attempts : Nat
  signals : List (Signal × Nat)
  waits : Nat
deriving DecidableEq, Repr

/-- The world before anything was spawned. -/
def World.empty : World :=
  { live := [], nextPid := 0, attempts := 0, signals := [], waits := 0 }

/-- The child `pid` is no longer live. -/
def World.reap (w : World) (pid : Nat) : World :=
  { w with live := w.live.filter (fun p => p != pid) }

/-- A call of `Signal` or `Kill` on the child `pid`. -/
def World.send (w : World) (sig : Signal) (pid : Nat) : World :=
  { w with signals := (sig, pid) :: w.signals }

/-- A call of `Wait` was made. -/
def World.waited (w : World) : World :=
  { w with waits := w.waits + 1 }

/-- A call of `Start` was made; when it succeeds a new live child exists. -/
def World.spawn (w : World) (ok : Bool) : World :=
  if ok then
    { w with live := w.nextPid :: w.live, nextPid := w.nextPid + 1, attempts := w.attempts + 1 }
  else
    { w with attempts := w.attempts + 1 }

/-! ## The log health check -/

/-- The line `checkLogs` prints, if any. -/
inductive LogNotice where
  | silent
  | initial
  | grown
  | rewritten
  | timedOut
  | waiting
deriving DecidableEq, Repr

/-- Outcome of `checkLogs`: `ok = none` is the error return, `ok = some b` the
boolean it returns with a nil error; `m` is the Monitor afterwards. -/
structure CheckResult where
  ok : Option Bool
  notice : LogNotice
  m : Monitor
deriving DecidableEq, Repr

/-- The method `checkLogs`.  `stat` is the result of `getLogInfo` (`none` when
`os.Stat` fails, else modification time and size) and `now` the clock reading.
In the waiting notice `int(d.Seconds())` is taken as the truncating division of
the nanoseconds by `Second`. -/
def checkLogs (m : Monitor) (stat : Option (Int × Int)) (now : Int) : CheckResult :=
  match stat with
  | none => { ok := none, notice := LogNotice.silent, m := m }
  | some (modTime, size) =>
    if m.lastModTime = 0 then
      { ok := some true, notice := LogNotice.initial,
        m := { m with lastModTime := modTime, lastLogSize := size } }
    else if size > m.lastLogSize then
      { ok := some true, notice := LogNotice.grown,
        m := { m with lastModTime := now, lastLogSize := size, retryCount := 0 } }
    else if modTime > m.lastModTime then
      { ok := some true, notice := LogNotice.rewritten,
        m := { m with lastModTime := modTime, lastLogSize := size, retryCount := 0 } }
    else if timeSince now m.lastModTime > m.timeout then
      { ok := some false, notice := LogNotice.timedOut, m := m }
    else if Int.tmod (Int.tdiv (timeSince now m.lastModTime) Second) 30 = 0
        ∧ timeSince now m.lastModTime > 30 * Second then
      { ok := some true, notice := LogNotice.waiting, m := m }
    else
      { ok := some true, notice := LogNotice.silent, m := m }

/-! ## Starting and terminating the child -/

/-- How the operating system answers the termination sequence of
`killProcessUnsafe`.  `gone` tells whether the child has in fact ended by the
time the call returns, in the outcomes where the Monitor has no confirmation.

* `sigtermError`: `Signal(SIGTERM)` returned an error;
* `exited`: `Wait` returned within 5 seconds (`waitErr`: with an error);
* `forcedReaped`: 5 seconds passed, `Kill` was sent, `Wait` returned within
  2 more seconds;
* `forcedUnconfirmed`: as before, but `Wait` did not return within 2 seconds. -/
inductive KillEnv where
  | sigtermError (gone : Bool)
  | exited (waitErr : Bool)
  | forcedReaped
  | forcedUnconfirmed (gone : Bool)
deriving DecidableEq, Repr

/-- The line `killProcessUnsafe` prints last, if any. -/
inductive KillNotice where
  | nothing
  | sigtermFailed
  | exitedCleanly
  | exitedWithError
  | forced
  | forcedMayRemain
deriving DecidableEq, Repr

/-- The message of `killProcessUnsafe` for a Monitor and an answer of the
system. -/
def killNotice (m : Monitor) (k : KillEnv) : KillNotice :=
  match m.process with
  | some { proc := some _ } =>
    match k with
    | KillEnv.sigtermError _ => KillNotice.sigtermFailed
    | KillEnv.exited true => KillNotice.exitedWithError
    | KillEnv.exited false => KillNotice.exitedCleanly
    | KillEnv.forcedReaped => KillNotice.forced
    | KillEnv.forcedUnconfirmed _ => KillNotice.forcedMayRemain
  | _ => KillNotice.nothing

/-- The method `killProcessUnsafe`: return at once when there is no handle or
no OS process behind it; send SIGTERM and return if that fails; otherwise wait
up to 5 seconds for `Wait`, then `Kill` and wait up to 2 more seconds; finally
clear the handle.  (The test `m.process.Process != nil` before `Kill` always
succeeds there, the same pointer having been tested at the entry.) -/
def killProcessUnsafe (m : Monitor) (w : World) (k : KillEnv) : Monitor × World :=
  match m.process with
  | some { proc := some pid } =>
    match k with
    | KillEnv.sigtermError gone =>
      (m, if gone then (w.send Signal.sigterm pid).reap pid else w.send Signal.sigterm pid)
    | KillEnv.exited _ =>
      ({ m with process := none }, ((w.send Signal.sigterm pid).reap pid).waited)
    | KillEnv.forcedReaped =>
      ({ m with process := none },
        (((w.send Signal.sigterm pid).send Signal.sigkill pid).reap pid).waited)
    | KillEnv.forcedUnconfirmed gone =>
      ({ m with process := none },
        if gone then (((w.send Signal.sigterm pid).send Signal.sigkill pid).reap pid).waited
        else ((w.send Signal.sigterm pid).send Signal.sigkill pid).waited)
  | _ => (m, w)

/-- The method `killProcess` (the locked wrapper). -/
def killProcess (m : Monitor) (w : World) (k : KillEnv) : Monitor × World :=
  killProcessUnsafe m w k

/-- Outcome of `startProcess`: `err` tells whether it returned an error. -/
structure StartResult where
  err : Bool
  m : Monitor
  w : World
deriving DecidableEq, Repr

/-- The method `startProcess`.  `k` answers the termination sequence (run only
when a handle is held), `spawnOk` tells whether `Start` succeeds and `now` is
the clock reading taken afterwards. -/
def startProcess (m : Monitor) (w : World) (k : KillEnv) (spawnOk : Bool) (now : Int) :
    StartResult :=
  let mw := if m.process.isSome then killProcessUnsafe m w k else (m, w)
  if spawnOk then
    { err := false
      m := { mw.1 with process := some { proc := some mw.2.nextPid }, lastModTime := now }
      w := mw.2.spawn true }
  else
    { err := true
      m := { mw.1 with process := some { proc := none }, retryCount := mw.1.retryCount + 1,
                       lastFailure := now }
      w := mw.2.spawn false }

/-- How the system answers the liveness probe `Signal(0)`: `ok` when it returns
nil, `error gone` when it returns an error (`gone`: the child has in fact
ended). -/
inductive ProbeEnv where
  | ok
  | error (gone : Bool)
deriving DecidableEq, Repr

/-- Outcome of `isProcessRunning`. -/
structure ProbeResult where
  alive : Bool
  m : Monitor
  w : World
deriving DecidableEq, Repr

/-- The method `isProcessRunning`: false without a handle or an OS process, or
when the context is done; otherwise signal 0 is sent, and on an error the
handle is cleared. -/
def isProcessRunning (m : Monitor) (w : World) (p : ProbeEnv) : ProbeResult :=
  match m.process with
  | some { proc := some pid } =>
    if m.cancelled then { alive := false, m := m, w := w }
    else
      match p with
      | ProbeEnv.ok => { alive := true, m := m, w := w.send Signal.sigzero pid }
      | ProbeEnv.error gone =>
        { alive := false, m := { m with process := none },
          w := if gone then (w.send Signal.sigzero pid).reap pid
               else w.send Signal.sigzero pid }
  | _ => { alive := false, m := m, w := w }

/-- The method `canRetry`. -/
def canRetry (m : Monitor) : Bool := decide (m.retryCount < m.maxRetries)

/-- The method `resetRetries`. -/
def resetRetries (m : Monitor) : Monitor :=
  if m.retryCount > 0 then { m with retryCount := 0 } else m

/-- The method `cancel` of the Monitor's context. -/
def cancel (m : Monitor) : Monitor := { m with cancelled := true }

/-! ## The control loop -/

/-- Where `Run` stands: in its loop, or returned / exited at one of its exits
(`tickerPanic`: the panic of `time.NewTicker`). -/
inductive Phase where
  | looping
  | signalled
  | contextDone
  | retriesExceeded
  | retriesExhausted
  | fatalValidation
  | fatalStart
  | tickerPanic
deriving DecidableEq, Repr

/-- The two exits of `Run` that give the Monitor up for good (Failed). -/
def Phase.isFailed (p : Phase) : Bool :=
  match p with
  | Phase.retriesExceeded => true
  | Phase.retriesExhausted => true
  | _ => false

/-- State of an execution of `Run`: the Monitor, the world, the local
`stableIterations`, the argument of the `time.Sleep` of the last tick (0 when
the tick did not sleep) and the phase. -/
structure RunState where
  m : Monitor
  w : World
  stableIterations : Nat
  waitTime : Int
  phase : Phase
deriving DecidableEq, Repr

/-- The answers of the system during one tick of the loop. -/
structure TickEnv where
  probe : ProbeEnv
  stat : Option (Int × Int)
  now : Int
  kill : KillEnv
  spawnOk : Bool
  startNow : Int
deriving DecidableEq, Repr

/-- Step 3 of a tick, entered with `needRestart` set (and `stableIterations`
already 0): give up when `canRetry` fails, else `startProcess`; on its error
give up when `canRetry` fails now, else sleep `retryCount * Second * 5`. -/
def restart (m : Monitor) (w : World) (e : TickEnv) : RunState :=
  if !canRetry m then
    { m := cancel m, w := w, stableIterations := 0, waitTime := 0,
      phase := Phase.retriesExceeded }
  else
    let r := startProcess m w e.kill e.spawnOk e.startNow
    if r.err then
      if !canRetry r.m then
        { m := cancel r.m, w := r.w, stableIterations := 0, waitTime := 0,
          phase := Phase.retriesExhausted }
      else
        { m := r.m, w := r.w, stableIterations := 0,
          waitTime := wrap64 (wrap64 (r.m.retryCount * Second) * 5),
          phase := Phase.looping }
    else
      { m := r.m, w := r.w, stableIterations := 0, waitTime := 0, phase := Phase.looping }

/-- The `ticker.C` case of the loop of `Run`. -/
def tick (s : RunState) (e : TickEnv) : RunState :=
  let p := isProcessRunning s.m s.w e.probe
  if p.alive then
    let r := checkLogs p.m e.stat e.now
    match r.ok with
    | none => { s with m := r.m, w := p.w, waitTime := 0 }
    | some false => restart r.m p.w e
    | some true =>
      if s.stableIterations + 1 ≥ 10 then
        { s with m := resetRetries r.m, w := p.w, stableIterations := 0, waitTime := 0 }
      else
        { s with m := r.m, w := p.w, stableIterations := s.stableIterations + 1,
                 waitTime := 0 }
  else
    restart p.m p.w e

/-- What the loop of `Run` can receive: a shutdown signal, the done context, a
tick; `childExit` is the child `pid` ending on its own, outside the loop. -/
inductive Event where
  | signal (k : KillEnv)
  | ctxDone (k : KillEnv)
  | tick (e : TickEnv)
  | childExit (pid : Nat)
deriving DecidableEq, Repr

/-- One iteration of the loop of `Run`; nothing happens once `Run` has left the
loop, and the context case is taken only when the context is done. -/
def step (s : RunState) (ev : Event) : RunState :=
  match s.phase with
  | Phase.looping =>
    match ev with
    | Event.signal k =>
      let mw := killProcess (cancel s.m) s.w k
      { s with m := mw.1, w := mw.2, waitTime := 0, phase := Phase.signalled }
    | Event.ctxDone k =>
      if s.m.cancelled then
        let mw := killProcess s.m s.w k
        { s with m := mw.1, w := mw.2, waitTime := 0, phase := Phase.contextDone }
      else s
    | Event.tick e => tick s e
    | Event.childExit pid => { s with w := s.w.reap pid }
  | _ => s

/-- The answers of the system while `Run` sets up: whether `validate` succeeds,
and those of the first `startProcess`. -/
structure InitEnv where
  validateOk : Bool
  kill : KillEnv
  spawnOk : Bool
  startNow : Int
deriving DecidableEq, Repr

/-- The part of `Run` before the loop: `validate`, then the first
`startProcess`; either failing ends the program (`log.Fatalf`).  Then
`time.NewTicker(m.interval)`, which panics for an interval that is not
positive. -/
def runInit (m : Monitor) (w : World) (i : InitEnv) : RunState :=
  if !i.validateOk then
    { m := m, w := w, stableIterations := 0, waitTime := 0, phase := Phase.fatalValidation }
  else
    let r := startProcess m w i.kill i.spawnOk i.startNow
    if r.err then
      { m := r.m, w := r.w, stableIterations := 0, waitTime := 0, phase := Phase.fatalStart }
    else if r.m.interval ≤ 0 then
      { m := r.m, w := r.w, stableIterations := 0, waitTime := 0, phase := Phase.tickerPanic }
    else
      { m := r.m, w := r.w, stableIterations := 0, waitTime := 0, phase := Phase.looping }

/-- The method `Run` on a Monitor, followed through a list of events. -/
def Run (m : Monitor) (i : InitEnv) (evs : List Event) : RunState :=
  evs.foldl step (runInit m World.empty i)

/-- The states `Run` can be in when started on a freshly constructed Monitor. -/
def Reachable (s : RunState) : Prop :=
  ∃ (command logFile : String) (timeout interval : Int) (i : InitEnv) (evs : List Event),
    s = Run (NewMonitor command logFile timeout interval) i evs

/-- Invariant of the control loop: `maxRetries` is 3, `retryCount` lies between
0 and 3, `stableIterations` is below 10, and while `Run` is in its loop
`retryCount` is below 3 and the context is not cancelled. -/
def Inv (s : RunState) : Prop :=
  s.m.maxRetries = 3 ∧ 0 ≤ s.m.retryCount ∧ s.m.retryCount ≤ 3 ∧ s.stableIterations < 10 ∧
    (s.phase = Phase.looping → s.m.retryCount < 3 ∧ s.m.cancelled = false)

/-! ## Concrete executions -/

/-- A start of `Run` in which `validate` and the first spawn succeed, at clock
reading 1000 s. -/
def goodInit : InitEnv :=
  { validateOk := true, kill := KillEnv.exited false, spawnOk := true, startNow := 1000 * Second }

/-- Tick number `k` of a child that stays alive, always respawns, and whose log
file stays empty with the modification time 900 s: the clock reads
`1000 + k` seconds, a termination ends with the child exiting in time. -/
def silentTick (k : Nat) : TickEnv :=
  { probe := ProbeEnv.ok, stat := some (900 * Second, 0), now := (1000 + (k : Int)) * Second,
    kill := KillEnv.exited false, spawnOk := true, startNow := (1000 + (k : Int)) * Second }

/-- The first `n` ticks of the silent-log execution, one per second. -/
def silentTicks (n : Nat) : List Event :=
  (List.range n).map (fun k => Event.tick (silentTick (k + 1)))

/-- The Monitor of the silent-log execution: timeout 3 s, interval 1 s. -/
def silentMonitor : Monitor := NewMonitor "sleep 1000" "/tmp/app.log" 3 1

/-- A Monitor in mid-run: baseline at 1000 s with 100 bytes of log, two failed
attempts counted, child 0 held; timeout 60 s, interval 5 s. -/
def busyMonitor : Monitor :=
  { NewMonitor "python3 app.py" "/tmp/app.log" 60 5 with
    process := some { proc := some 0 }, lastModTime := 1000 * Second, lastLogSize := 100,
    retryCount := 2 }

/-- A tick of a child whose liveness probe fails (it has ended), followed by a
spawn that fails, at clock reading `t` seconds. -/
def deadTickSpawnFails (t : Int) : TickEnv :=
  { probe := ProbeEnv.error true, stat := some (900 * Second, 0), now := t * Second,
    kill := KillEnv.exited false, spawnOk := false, startNow := t * Second }

/-- Whether a tick finds that a restart is needed: the liveness probe reports
the child not alive, or the health check reports unhealthy. -/
def needRestart (s : RunState) (e : TickEnv) : Bool :=
  !(isProcessRunning s.m s.w e.probe).alive
    || (checkLogs (isProcessRunning s.m s.w e.probe).m e.stat e.now).ok == some false

/-- A state of the loop right after a successful start at 1000 s: timeout 5 s,
interval 1 s, child 0 running, nothing counted yet. -/
def runningState : RunState :=
  Run (NewMonitor "python3 app.py > /tmp/app.log 2>&1" "/tmp/app.log" 5 1) goodInit []

/-- A tick in which the liveness probe fails, the child being gone, and the
respawn succeeds, at clock reading 1001 s. -/
def killedChildTick : TickEnv :=
  { probe := ProbeEnv.error true, stat := some (1000 * Second, 10), now := 1001 * Second,
    kill := KillEnv.exited false, spawnOk := true, startNow := 1001 * Second }

/-- A tick in which the child is alive and the log probe fails. -/
def statFailsTick : TickEnv :=
  { probe := ProbeEnv.ok, stat := none, now := 1001 * Second,
    kill := KillEnv.exited false, spawnOk := true, startNow := 1001 * Second }

/-- The running state after its child was killed from outside. -/
def killedState : RunState := step runningState (Event.childExit 0)

/-- A healthy tick: the child is alive and the health check reports healthy. -/
def healthyTick (s : RunState) (e : TickEnv) : Bool :=
  (isProcessRunning s.m s.w e.probe).alive
    && (checkLogs (isProcessRunning s.m s.w e.probe).m e.stat e.now).ok == some true

/-- A healthy tick without log activity: the health check saw neither growth
nor a newer modification time. -/
def quietTick (s : RunState) (e : TickEnv) : Bool :=
  healthyTick s e
    && (checkLogs (isProcessRunning s.m s.w e.probe).m e.stat e.now).notice != LogNotice.grown
    && (checkLogs (isProcessRunning s.m s.w e.probe).m e.stat e.now).notice
        != LogNotice.rewritten

/-- Consecutive ticks of the loop. -/
def ticks (s : RunState) (es : List TickEnv) : RunState := es.foldl tick s

/-- Every one of the consecutive ticks `es`, run from `s`, is healthy. -/
def allHealthy : RunState → List TickEnv → Bool
  | _, [] => true
  | s, e :: es => healthyTick s e && allHealthy (tick s e) es

/-- Every one of the consecutive ticks `es`, run from `s`, is healthy and
without log activity. -/
def allQuiet : RunState → List TickEnv → Bool
  | _, [] => true
  | s, e :: es => quietTick s e && allQuiet (tick s e) es

/-- A Monitor with timeout 60 s and interval 1 s. -/
def patientMonitor : Monitor := NewMonitor "python3 app.py" "/tmp/app.log" 60 1

/-- The loop right after a restart that needed two attempts: the child died, a
first respawn failed (`retryCount = 1`), the second succeeded at 1007 s. -/
def restartedState : RunState :=
  Run patientMonitor goodInit
    [Event.tick (deadTickSpawnFails 1001), Event.tick (silentTick 7)]

/-- The restarted loop after three healthy ticks and one tick whose log probe
failed: the stable counter stands at 3. -/
def interruptedState : RunState :=
  Run patientMonitor goodInit
    [Event.tick (deadTickSpawnFails 1001), Event.tick (silentTick 7),
      Event.tick (silentTick 8), Event.tick (silentTick 9), Event.tick (silentTick 10),
      Event.tick statFailsTick]

/-- Ten consecutive quiet ticks, at 1000 + `k` seconds for `k` from `first`. -/
def tenQuietTicks (first : Nat) : List TickEnv :=
  (List.range 10).map (fun k => silentTick (first + k))

/-- The termination sequence ends with the child gone: `Wait` returned, or the
child had in fact ended although the Monitor got no confirmation. -/
def KillEnv.confirms (k : KillEnv) : Bool :=
  match k with
  | KillEnv.sigtermError gone => gone
  | KillEnv.exited _ => true
  | KillEnv.forcedReaped => true
  | KillEnv.forcedUnconfirmed gone => gone

/-- The liveness probe fails only for a child that has ended. -/
def ProbeEnv.truthful (p : ProbeEnv) : Bool :=
  match p with
  | ProbeEnv.ok => true
  | ProbeEnv.error gone => gone

/-- An event in which every termination sequence ends with the child gone and
the liveness probe fails only for a child that has ended. -/
def Event.faithful (ev : Event) : Bool :=
  match ev with
  | Event.signal k => k.confirms
  | Event.ctxDone k => k.confirms
  | Event.tick e => e.kill.confirms && e.probe.truthful
  | Event.childExit _ => true

/-- No child is live, or exactly one is and the Monitor holds its handle. -/
def LiveInv (m : Monitor) (w : World) : Prop :=
  w.live = [] ∨ ∃ p, w.live = [p] ∧ m.process = some { proc := some p }

/-- A tick whose health check times out (at 1004 s) and whose termination
sequence goes all the way: SIGTERM, 5 s, SIGKILL, 2 s without `Wait` returning,
the child still being there; the respawn, at 1011 s, succeeds. -/
def stubbornTick : TickEnv :=
  { probe := ProbeEnv.ok, stat := some (900 * Second, 0), now := 1004 * Second,
    kill := KillEnv.forcedUnconfirmed false, spawnOk := true, startNow := 1011 * Second }

/-- A tick of a live child whose log file holds 100 bytes written at 900 s,
before the Monitor started; the clock reads `1000 + k` seconds. -/
def staleLogTick (k : Nat) : TickEnv :=
  { probe := ProbeEnv.ok, stat := some (900 * Second, 100), now := (1000 + (k : Int)) * Second,
    kill := KillEnv.exited false, spawnOk := true, startNow := (1000 + (k : Int)) * Second }

/-- A Monitor with timeout 1 s and interval 5 s. -/
def hastyMonitor : Monitor := NewMonitor "python3 app.py" "/tmp/app.log" 1 5

/-! ## The two modes of the program -/

/-- An entry of the configuration file (`ProcessConfig`); a key that is absent
from the file leaves the zero value of its field. -/
structure ProcessConfig where
  Name : String
  Command : String
  LogFile : String
  Timeout : Int
  Interval : Int
deriving DecidableEq, Repr

/-- The parsed configuration file (`Config`). -/
structure Config where
  Processes : List ProcessConfig
deriving DecidableEq, Repr

/-- The lines `main` can print while it prepares single-process mode. -/
inductive MainNotice where
  | invalidTimeout
  | invalidInterval
  | timeoutBelowInterval
  | intervalTooSmall
deriving DecidableEq, Repr

/-- The values `main` hands to `NewMonitor` in single-process mode, and the
lines it printed before. -/
structure MainSetup where
  timeout : Int
  interval : Int
  notices : List MainNotice
deriving DecidableEq, Repr

/-- One optional argument of `main`: `arg` is `none` when the argument is not
given, `some none` when `strconv.Atoi` fails on it, `some (some t)` when it
parses to `t`; the parsed value is taken when positive, else the default is
kept and a line is printed. -/
def parseOptional (arg : Option (Option Int)) (dflt : Int) (bad : MainNotice) :
    Int × List MainNotice :=
  match arg with
  | none => (dflt, [])
  | some none => (dflt, [bad])
  | some (some t) => if t > 0 then (t, []) else (dflt, [bad])

/-- The part of `main` between the parsing of the arguments and `NewMonitor`,
in single-process mode.  `opts` holds the results of `strconv.Atoi` on the
arguments after the command and the log file (`os.Args[3]`, `os.Args[4]`). -/
def mainSetup (opts : List (Option Int)) : MainSetup :=
  let t := parseOptional opts[0]? 60 MainNotice.invalidTimeout
  let i := parseOptional opts[1]? 5 MainNotice.invalidInterval
  let warn := if t.1 < i.1 then [MainNotice.timeoutBelowInterval] else []
  if i.1 < 1 then
    { timeout := t.1, interval := 1,
      notices := t.2 ++ i.2 ++ warn ++ [MainNotice.intervalTooSmall] }
  else
    { timeout := t.1, interval := i.1, notices := t.2 ++ i.2 ++ warn }

/-- The Monitor `main` builds in single-process mode. -/
def mainMonitor (command logFile : String) (opts : List (Option Int)) : Monitor :=
  NewMonitor command logFile (mainSetup opts).timeout (mainSetup opts).interval

/-- How the program ended: `exitZero` is `os.Exit(0)` or the return of `main`,
`fatal` is `log.Fatal` / `log.Fatalf`, `panicked` is a panic. -/
inductive ProgramEnd where
  | exitZero
  | fatal
  | panicked
deriving DecidableEq, Repr

/-- A phase of `Run` that ends the whole program: the two `log.Fatalf` exits
and the panic of `time.NewTicker`. -/
def Phase.programEnd (p : Phase) : Option ProgramEnd :=
  match p with
  | Phase.fatalValidation => some ProgramEnd.fatal
  | Phase.fatalStart => some ProgramEnd.fatal
  | Phase.tickerPanic => some ProgramEnd.panicked
  | _ => none

/-- State of the program in multi-process mode: the executions of `Run`, one
per entry and in the order of the entries, and how the program ended, if it
has. -/
structure GroupState where
  monitors : List RunState
  ended : Option ProgramEnd
deriving DecidableEq, Repr

/-- The end of the program that the phases of the Monitors bring about: the
first fatal exit or panic among them; otherwise, once every `Run` has returned,
`wg.Wait` returns and `main` ends. -/
def groupEnd (ms : List RunState) : Option ProgramEnd :=
  match ms.findSome? (fun s => s.phase.programEnd) with
  | some e => some e
  | none => if ms.all (fun s => s.phase != Phase.looping) then some ProgramEnd.exitZero else none

/-- The function `runFromConfig` up to the point where every goroutine has
built its Monitor and gone through the set-up part of `Run`.  `load` is the
result of `loadConfig` (`none`: the file cannot be read or parsed); each entry
comes with the answers of the system to its Monitor.  The interval and the
timeout of an entry go to `NewMonitor` as they are. -/
def runFromConfig (load : Option (List (ProcessConfig × InitEnv))) : GroupState :=
  match load with
  | none => { monitors := [], ended := some ProgramEnd.fatal }
  | some [] => { monitors := [], ended := some ProgramEnd.fatal }
  | some entries =>
    let ms := entries.map (fun pe =>
      runInit (NewMonitor pe.1.Command pe.1.LogFile pe.1.Timeout pe.1.Interval) World.empty pe.2)
    { monitors := ms, ended := groupEnd ms }

/-- The execution number `idx` takes the event `ev`; the others stay. -/
def stepAt (idx : Nat) (ev : Event) : List RunState → List RunState
  | [] => []
  | s :: rest =>
    match idx with
    | 0 => step s ev :: rest
    | n + 1 => s :: stepAt n ev rest

/-- What happens in multi-process mode after the set-up: the loop of the
Monitor number `idx` takes an event, or the goroutine of `runFromConfig` that
waits for an interrupt or terminate signal receives it. -/
inductive GroupEvent where
  | monitor (idx : Nat) (ev : Event)
  | shutdown
deriving DecidableEq, Repr

/-- One step of the program in multi-process mode.  On the signal the goroutine
of `runFromConfig` prints a line and calls `os.Exit(0)`. -/
def groupStep (g : GroupState) (ev : GroupEvent) : GroupState :=
  match g.ended with
  | some _ => g
  | none =>
    match ev with
    | GroupEvent.shutdown => { g with ended := some ProgramEnd.exitZero }
    | GroupEvent.monitor idx e =>
      { monitors := stepAt idx e g.monitors, ended := groupEnd (stepAt idx e g.monitors) }

/-- An entry with timeout 60 s and interval 5 s. -/
def webEntry : ProcessConfig :=
  { Name := "WebServer", Command := "python3 app.py", LogFile := "/tmp/app.log",
    Timeout := 60, Interval := 5 }

/-- An entry whose `interval` key is absent from the file (or is 0). -/
def noIntervalEntry : ProcessConfig :=
  { Name := "Worker", Command := "python3 worker.py", LogFile := "/tmp/worker.log",
    Timeout := 60, Interval := 0 }

/-- An entry with timeout 1 s and interval -5 s. -/
def negativeIntervalEntry : ProcessConfig :=
  { Name := "Worker", Command := "python3 worker.py", LogFile := "/tmp/worker.log",
    Timeout := 1, Interval := -5 }

/-- An entry whose `timeout` and `interval` keys are both absent. -/
def bareEntry : ProcessConfig :=
  { Name := "Worker", Command := "python3 worker.py", LogFile := "/tmp/worker.log",
    Timeout := 0, Interval := 0 }

/-! ## The discovery tool: `removeDuplicates` -/

/-- A candidate for monitoring (`ProcessCandidate` of `discovery.go`).  Go
strings are taken as Lean strings. -/
structure ProcessCandidate where
  Name : String
  PID : String
  Command : String
  LogFile : String
  Port : String
  User : String
  CPUUsage : String
  MemoryUsage : String
deriving DecidableEq, Repr

/-- The key `removeDuplicates` looks up in `seen`:
`candidate.Name + ":" + candidate.Command`. -/
def ProcessCandidate.key (c : ProcessCandidate) : String :=
  c.Name ++ ":" ++ c.Command

/-- The validation of `removeDuplicates`: the name is neither empty nor
`unknown`, the command is not empty and is not the log file. -/
def ProcessCandidate.valid (c : ProcessCandidate) : Bool :=
  !(c.Name == "" || c.Name == "unknown" || c.Command == "" || c.Command == c.LogFile)

/-- One iteration of the loop of `removeDuplicates` on the pair of `seen` (the
keys set to true in the map) and `unique`. -/
def removeDuplicatesStep (acc : List String × List ProcessCandidate) (c : ProcessCandidate) :
    List String × List ProcessCandidate :=
  if c.Name == "" || c.Name == "unknown" || c.Command == "" || c.Command == c.LogFile then
    acc
  else if acc.1.contains c.key then
    acc
  else
    (c.key :: acc.1, acc.2 ++ [c])

/-- The function `removeDuplicates`. -/
def removeDuplicates (candidates : List ProcessCandidate) : List ProcessCandidate :=
  (candidates.foldl removeDuplicatesStep ([], [])).2

/-- A candidate named `nginx: worker` with the command `start`. -/
def colonNameCandidate : ProcessCandidate :=
  { Name := "nginx: worker", PID := "100", Command := "start", LogFile := "/var/log/a.log",
    Port := "", User := "www", CPUUsage := "0.1", MemoryUsage := "0.2" }

/-- A candidate named `nginx` with the command ` worker:start`. -/
def colonCommandCandidate : ProcessCandidate :=
  { Name := "nginx", PID := "200", Command := " worker:start", LogFile := "/var/log/b.log",
    Port := "", User := "www", CPUUsage := "0.3", MemoryUsage := "0.4" }

/-! ## The discovery tool: `saveConfiguration` -/

/-- The double-quote character. -/
def dquote : Char := Char.ofNat 34

/-- The backslash character. -/
def backslash : Char := Char.ofNat 92

/-- The function `strconv.IsPrint` of the Go library, as `%q` uses it: exact on
Latin-1; beyond it the library consults tables, taken here as `table`. -/
def IsPrint (table : Char → Bool) (r : Char) : Bool :=
  if r.toNat ≤ 255 then
    (32 ≤ r.toNat && r.toNat ≤ 126) || (161 ≤ r.toNat && r.toNat != 173)
  else table r

/-- The hexadecimal digit of `n < 16`, in lower case. -/
def hexChar (n : Nat) : Char :=
  if n < 10 then Char.ofNat (48 + n) else Char.ofNat (87 + n)

/-- The `width` hexadecimal digits of `n`, most significant first. -/
def hexDigits : Nat → Nat → List Char
  | 0, _ => []
  | width + 1, n => hexDigits width (n / 16) ++ [hexChar (n % 16)]

/-- What `strconv.Quote` (the verb `%q`) writes for one rune of a valid
string: the quote and the backslash get a backslash, printable runes stand for
themselves, the others are written as an escape. -/
def appendEscapedRune (table : Char → Bool) (r : Char) : List Char :=
  if r = dquote ∨ r = backslash then [backslash, r]
  else if IsPrint table r then [r]
  else if r.toNat = 7 then [backslash, 'a']
  else if r.toNat = 8 then [backslash, 'b']
  else if r.toNat = 12 then [backslash, 'f']
  else if r.toNat = 10 then [backslash, 'n']
  else if r.toNat = 13 then [backslash, 'r']
  else if r.toNat = 9 then [backslash, 't']
  else if r.toNat = 11 then [backslash, 'v']
  else if r.toNat < 32 ∨ r.toNat = 127 then [backslash, 'x'] ++ hexDigits 2 r.toNat
  else if r.toNat < 65536 then [backslash, 'u'] ++ hexDigits 4 r.toNat
  else [backslash, 'U'] ++ hexDigits 8 r.toNat

/-- The text `fmt.Fprintf` writes for the verb `%q` applied to a string. -/
def Quote (table : Char → Bool) (s : String) : String :=
  String.mk ([dquote] ++ (s.toList.map (appendEscapedRune table)).flatten ++ [dquote])

/-- The local `safeCommand` of `saveConfiguration`: the command with every
double quote replaced by a backslash and a double quote
(`strings.ReplaceAll`). -/
def safeCommand (command : String) : String :=
  String.mk (command.toList.map (fun c => if c = dquote then [backslash, dquote] else [c])).flatten

/-- The values `saveConfiguration` writes after the five keys of one entry. -/
structure SavedEntry where
  name : String
  command : String
  logFile : String
  timeout : Int
  interval : Int
deriving DecidableEq, Repr

/-- The body of the loop of `saveConfiguration` for one entry: name and log
file are written with `%q`, the command with `%q` applied to `safeCommand`,
timeout and interval with `%d`. -/
def saveEntry (table : Char → Bool) (config : ProcessConfig) : SavedEntry :=
  { name := Quote table config.Name
    command := Quote table (safeCommand config.Command)
    logFile := Quote table config.LogFile
    timeout := config.Timeout
    interval := config.Interval }

/-- The entries `saveConfiguration` writes under `processes:` (the comment
lines of the file are left out). -/
def saveConfiguration (table : Char → Bool) (configs : List ProcessConfig) : List SavedEntry :=
  configs.map (saveEntry table)

/-- The value of a hexadecimal digit. -/
def hexValue (c : Char) : Option Nat :=
  if 48 ≤ c.toNat ∧ c.toNat ≤ 57 then some (c.toNat - 48)
  else if 97 ≤ c.toNat ∧ c.toNat ≤ 102 then some (c.toNat - 87)
  else if 65 ≤ c.toNat ∧ c.toNat ≤ 70 then some (c.toNat - 55)
  else none

/-- The character of a code point, when it is one. -/
def codePoint (n : Nat) : Option Char :=
  if n.isValidChar then some (Char.ofNat n) else none

/-- The one-character escapes of a double-quoted YAML scalar. -/
def yamlEscape (e : Char) : Option Char :=
  if e = '0' then some (Char.ofNat 0)
  else if e = 'a' then some (Char.ofNat 7)
  else if e = 'b' then some (Char.ofNat 8)
  else if e = 't' ∨ e.toNat = 9 then some (Char.ofNat 9)
  else if e = 'n' then some (Char.ofNat 10)
  else if e = 'v' then some (Char.ofNat 11)
  else if e = 'f' then some (Char.ofNat 12)
  else if e = 'r' then some (Char.ofNat 13)
  else if e = 'e' then some (Char.ofNat 27)
  else if e = ' ' then some ' '
  else if e = dquote then some dquote
  else if e.toNat = 39 then some e
  else if e = backslash then some backslash
  else if e = 'N' then some (Char.ofNat 133)
  else if e = '_' then some (Char.ofNat 160)
  else if e = 'L' then some (Char.ofNat 8232)
  else if e = 'P' then some (Char.ofNat 8233)
  else none

/-- Where the scanner of a double-quoted scalar stands: in plain text, right
after a backslash, inside a numeric escape with `left` hexadecimal digits to
come and the value `acc` so far, past the closing quote, or failed. -/
inductive ScanMode where
  | plain
  | escape
  | hex (left : Nat) (acc : Nat)
  | closed
  | failed
deriving DecidableEq, Repr

/-- State of the scanner: its mode and the characters decoded so far. -/
structure ScanState where
  mode : ScanMode
  out : List Char
deriving DecidableEq, Repr

/-- One character of a double-quoted scalar, after the opening quote, as the
loader of the configuration scans it (`yaml.Unmarshal` of the library
gopkg.in/yaml.v2, which `loadConfig` calls): characters stand for themselves
up to the closing quote, a backslash starts one of the escapes of YAML.  The
scan fails on an unknown escape, a bad numeric escape, or text after the
closing quote; a scalar that runs over several lines is outside this function
(a raw line break fails). -/
def scanStep (s : ScanState) (c : Char) : ScanState :=
  match s.mode with
  | ScanMode.failed => s
  | ScanMode.closed => { s with mode := ScanMode.failed }
  | ScanMode.plain =>
    if c = dquote then { s with mode := ScanMode.closed }
    else if c.toNat = 10 ∨ c.toNat = 13 then { s with mode := ScanMode.failed }
    else if c = backslash then { s with mode := ScanMode.escape }
    else { s with out := s.out ++ [c] }
  | ScanMode.escape =>
    if c = 'x' then { s with mode := ScanMode.hex 2 0 }
    else if c = 'u' then { s with mode := ScanMode.hex 4 0 }
    else if c = 'U' then { s with mode := ScanMode.hex 8 0 }
    else
      match yamlEscape c with
      | some ch => { mode := ScanMode.plain, out := s.out ++ [ch] }
      | none => { s with mode := ScanMode.failed }
  | ScanMode.hex left acc =>
    match hexValue c with
    | none => { s with mode := ScanMode.failed }
    | some v =>
      if left ≤ 1 then
        match codePoint (16 * acc + v) with
        | some ch => { mode := ScanMode.plain, out := s.out ++ [ch] }
        | none => { s with mode := ScanMode.failed }
      else { s with mode := ScanMode.hex (left - 1) (16 * acc + v) }

/-- The scan of the text after the opening quote: the decoded characters when
the scan ends right after the closing quote. -/
def scanDoubleQuoted (cs : List Char) : Option (List Char) :=
  if (cs.foldl scanStep { mode := ScanMode.plain, out := [] }).mode = ScanMode.closed then
    some (cs.foldl scanStep { mode := ScanMode.plain, out := [] }).out
  else none

/-- The string the loader gets from a scalar in double quotes. -/
def decodeDoubleQuoted (scalar : String) : Option String :=
  match scalar.toList with
  | [] => none
  | c :: rest => if c = dquote then (scanDoubleQuoted rest).map String.mk else none

/-- The command `echo "hi"`. -/
def echoCommand : String :=
  String.mk ("echo ".toList ++ [dquote] ++ "hi".toList ++ [dquote])

/-- An entry whose command contains double quotes. -/
def echoEntry : ProcessConfig :=
  { Name := "Echo", Command := echoCommand, LogFile := "/tmp/echo.log",
    Timeout := 60, Interval := 5 }

theorem killProcessUnsafe_monitor (m : Monitor) (w : World) (k : KillEnv) :
    (killProcessUnsafe m w k).1 = m ∨ (killProcessUnsafe m w k).1 = { m with process := none } := by
  unfold killProcessUnsafe
  split
  · split <;> simp
  · exact Or.inl rfl

theorem isProcessRunning_monitor (m : Monitor) (w : World) (p : ProbeEnv) :
    (isProcessRunning m w p).m = m ∨ (isProcessRunning m w p).m = { m with process := none } := by
  unfold isProcessRunning
  split
  · split
    · exact Or.inl rfl
    · split <;> simp
  · exact Or.inl rfl

theorem isProcessRunning_alive_monitor (m : Monitor) (w : World) (p : ProbeEnv)
    (h : (isProcessRunning m w p).alive = true) : (isProcessRunning m w p).m = m := by
  unfold isProcessRunning at h ⊢
  split at h
  · split at h
    · simp at h
    · split at h <;> simp_all
  · simp at h

theorem startProcess_err (m : Monitor) (w : World) (k : KillEnv) (ok : Bool) (now : Int) :
    (startProcess m w k ok now).err = !ok := by
  unfold startProcess
  cases ok <;> simp

theorem startProcess_retryCount (m : Monitor) (w : World) (k : KillEnv) (ok : Bool) (now : Int) :
    (startProcess m w k ok now).m.retryCount = if ok then m.retryCount else m.retryCount + 1 := by
  unfold startProcess
  rcases killProcessUnsafe_monitor m w k with h | h <;>
    cases ok <;> cases m.process <;> simp [h]

theorem startProcess_maxRetries (m : Monitor) (w : World) (k : KillEnv) (ok : Bool) (now : Int) :
    (startProcess m w k ok now).m.maxRetries = m.maxRetries := by
  unfold startProcess
  rcases killProcessUnsafe_monitor m w k with h | h <;>
    cases ok <;> cases m.process <;> simp [h]

theorem startProcess_cancelled (m : Monitor) (w : World) (k : KillEnv) (ok : Bool) (now : Int) :
    (startProcess m w k ok now).m.cancelled = m.cancelled := by
  unfold startProcess
  rcases killProcessUnsafe_monitor m w k with h | h <;>
    cases ok <;> cases m.process <;> simp [h]

theorem checkLogs_maxRetries (m : Monitor) (stat : Option (Int × Int)) (now : Int) :
    (checkLogs m stat now).m.maxRetries = m.maxRetries := by
  unfold checkLogs
  split
  · rfl
  · split_ifs <;> rfl

theorem checkLogs_cancelled (m : Monitor) (stat : Option (Int × Int)) (now : Int) :
    (checkLogs m stat now).m.cancelled = m.cancelled := by
  unfold checkLogs
  split
  · rfl
  · split_ifs <;> rfl

theorem checkLogs_retryCount (m : Monitor) (stat : Option (Int × Int)) (now : Int) :
    (checkLogs m stat now).m.retryCount = 0 ∨
      (checkLogs m stat now).m.retryCount = m.retryCount := by
  unfold checkLogs
  split
  · exact Or.inr rfl
  · split_ifs <;> simp

theorem checkLogs_unhealthy_monitor (m : Monitor) (stat : Option (Int × Int)) (now : Int)
    (h : (checkLogs m stat now).ok ≠ some true) : (checkLogs m stat now).m = m := by
  unfold checkLogs at h ⊢
  split at h
  · rfl
  · split_ifs at h ⊢ <;> simp_all

/-! ## The invariant of the control loop -/

theorem isProcessRunning_retryCount (m : Monitor) (w : World) (p : ProbeEnv) :
    (isProcessRunning m w p).m.retryCount = m.retryCount := by
  rcases isProcessRunning_monitor m w p with h | h <;> rw [h]

theorem isProcessRunning_maxRetries (m : Monitor) (w : World) (p : ProbeEnv) :
    (isProcessRunning m w p).m.maxRetries = m.maxRetries := by
  rcases isProcessRunning_monitor m w p with h | h <;> rw [h]

theorem isProcessRunning_cancelled (m : Monitor) (w : World) (p : ProbeEnv) :
    (isProcessRunning m w p).m.cancelled = m.cancelled := by
  rcases isProcessRunning_monitor m w p with h | h <;> rw [h]

theorem killProcessUnsafe_retryCount (m : Monitor) (w : World) (k : KillEnv) :
    (killProcessUnsafe m w k).1.retryCount = m.retryCount := by
  rcases killProcessUnsafe_monitor m w k with h | h <;> rw [h]

theorem killProcessUnsafe_maxRetries (m : Monitor) (w : World) (k : KillEnv) :
    (killProcessUnsafe m w k).1.maxRetries = m.maxRetries := by
  rcases killProcessUnsafe_monitor m w k with h | h <;> rw [h]

theorem resetRetries_retryCount (m : Monitor) (h : 0 ≤ m.retryCount) :
    (resetRetries m).retryCount = 0 := by
  unfold resetRetries
  split_ifs with h0
  · rfl
  · omega

theorem resetRetries_maxRetries (m : Monitor) : (resetRetries m).maxRetries = m.maxRetries := by
  unfold resetRetries
  split_ifs <;> rfl

theorem resetRetries_cancelled (m : Monitor) : (resetRetries m).cancelled = m.cancelled := by
  unfold resetRetries
  split_ifs <;> rfl

theorem inv_intro (m : Monitor) (w : World) (st : Nat) (wt : Int) (ph : Phase)
    (h1 : m.maxRetries = 3) (h2 : 0 ≤ m.retryCount) (h3 : m.retryCount ≤ 3) (h4 : st < 10)
    (h5 : ph = Phase.looping → m.retryCount < 3 ∧ m.cancelled = false) :
    Inv { m := m, w := w, stableIterations := st, waitTime := wt, phase := ph } :=
  ⟨h1, h2, h3, h4, h5⟩

theorem restart_inv (m : Monitor) (w : World) (e : TickEnv) (hmax : m.maxRetries = 3)
    (h0 : 0 ≤ m.retryCount) (h3 : m.retryCount ≤ 3) (hc : m.cancelled = false) :
    Inv (restart m w e) := by
  have hrc := startProcess_retryCount m w e.kill e.spawnOk e.startNow
  have hmx := startProcess_maxRetries m w e.kill e.spawnOk e.startNow
  have hcn := startProcess_cancelled m w e.kill e.spawnOk e.startNow
  have her := startProcess_err m w e.kill e.spawnOk e.startNow
  unfold restart
  dsimp only
  generalize startProcess m w e.kill e.spawnOk e.startNow = r at *
  generalize e.spawnOk = ok at *
  have hcan : canRetry m = true → m.retryCount < 3 := by
    intro h; unfold canRetry at h; rw [hmax] at h; exact of_decide_eq_true h
  have hcan2 : canRetry r.m = true → r.m.retryCount < 3 := by
    intro h; unfold canRetry at h; rw [hmx, hmax] at h; exact of_decide_eq_true h
  by_cases hr : canRetry m = true
  · have hlt := hcan hr
    simp only [hr, Bool.not_true, Bool.false_eq_true, if_false]
    cases ok
    · simp only [Bool.false_eq_true, if_false] at hrc
      simp only [her, Bool.not_false, if_true]
      by_cases hr2 : canRetry r.m = true
      · have hlt2 := hcan2 hr2
        simp only [hr2, Bool.not_true, Bool.false_eq_true, if_false]
        exact inv_intro _ _ _ _ _ (by rw [hmx, hmax]) (by omega) (by omega) (by decide)
          (fun _ => ⟨hlt2, by rw [hcn, hc]⟩)
      · simp only [hr2, Bool.not_false, if_true]
        exact inv_intro _ _ _ _ _ (by show r.m.maxRetries = 3; rw [hmx, hmax])
          (by show 0 ≤ r.m.retryCount; omega) (by show r.m.retryCount ≤ 3; omega) (by decide)
          (fun h => by cases h)
    · simp only [if_true] at hrc
      simp only [her, Bool.not_true, Bool.false_eq_true, if_false]
      exact inv_intro _ _ _ _ _ (by rw [hmx, hmax]) (by omega) (by omega) (by decide)
        (fun _ => ⟨by omega, by rw [hcn, hc]⟩)
  · simp only [hr, Bool.not_false, if_true]
    exact inv_intro _ _ _ _ _ hmax h0 h3 (by decide) (fun h => by cases h)

theorem tick_inv (s : RunState) (e : TickEnv) (h : Inv s) (hl : s.phase = Phase.looping) :
    Inv (tick s e) := by
  obtain ⟨hmax, h0, h3, hst, hloop⟩ := h
  obtain ⟨hlt, hc⟩ := hloop hl
  have pr := isProcessRunning_retryCount s.m s.w e.probe
  have pm := isProcessRunning_maxRetries s.m s.w e.probe
  have pc := isProcessRunning_cancelled s.m s.w e.probe
  have cm := checkLogs_maxRetries (isProcessRunning s.m s.w e.probe).m e.stat e.now
  have cc := checkLogs_cancelled (isProcessRunning s.m s.w e.probe).m e.stat e.now
  have cr := checkLogs_retryCount (isProcessRunning s.m s.w e.probe).m e.stat e.now
  unfold tick
  dsimp only
  generalize isProcessRunning s.m s.w e.probe = p at *
  generalize checkLogs p.m e.stat e.now = r at *
  have hr0 : 0 ≤ r.m.retryCount := by omega
  have hr3 : r.m.retryCount < 3 := by omega
  have hrm : r.m.maxRetries = 3 := by rw [cm, pm, hmax]
  have hrc : r.m.cancelled = false := by rw [cc, pc, hc]
  by_cases ha : p.alive = true
  · simp only [ha, if_true]
    split
    · exact inv_intro _ _ _ _ _ hrm hr0 (by omega) hst (fun _ => ⟨hr3, hrc⟩)
    · exact restart_inv _ _ _ hrm hr0 (by omega) hrc
    · by_cases h10 : s.stableIterations + 1 ≥ 10
      · simp only [h10, if_true]
        exact inv_intro _ _ _ _ _ (by rw [resetRetries_maxRetries, hrm])
          (by rw [resetRetries_retryCount _ hr0]) (by rw [resetRetries_retryCount _ hr0]; decide)
          (by decide)
          (fun _ => ⟨by rw [resetRetries_retryCount _ hr0]; decide,
            by rw [resetRetries_cancelled, hrc]⟩)
      · simp only [h10, if_false]
        exact inv_intro _ _ _ _ _ hrm hr0 (by omega) (by omega) (fun _ => ⟨hr3, hrc⟩)
  · simp only [ha, Bool.false_eq_true, if_false]
    exact restart_inv _ _ _ (by rw [pm, hmax]) (by omega) (by omega) (by rw [pc, hc])

theorem step_inv (s : RunState) (ev : Event) (h : Inv s) : Inv (step s ev) := by
  unfold step
  split
  · rename_i hl
    split
    · obtain ⟨hmax, h0, h3, hst, _⟩ := h
      refine ⟨?_, ?_, ?_, hst, fun hp => by cases hp⟩
      · show (killProcessUnsafe (cancel s.m) s.w _).1.maxRetries = 3
        rw [killProcessUnsafe_maxRetries]; exact hmax
      · show 0 ≤ (killProcessUnsafe (cancel s.m) s.w _).1.retryCount
        rw [killProcessUnsafe_retryCount]; exact h0
      · show (killProcessUnsafe (cancel s.m) s.w _).1.retryCount ≤ 3
        rw [killProcessUnsafe_retryCount]; exact h3
    · split_ifs
      · obtain ⟨hmax, h0, h3, hst, _⟩ := h
        refine ⟨?_, ?_, ?_, hst, fun hp => by cases hp⟩
        · show (killProcessUnsafe s.m s.w _).1.maxRetries = 3
          rw [killProcessUnsafe_maxRetries]; exact hmax
        · show 0 ≤ (killProcessUnsafe s.m s.w _).1.retryCount
          rw [killProcessUnsafe_retryCount]; exact h0
        · show (killProcessUnsafe s.m s.w _).1.retryCount ≤ 3
          rw [killProcessUnsafe_retryCount]; exact h3
      · exact h
    · exact tick_inv s _ h hl
    · exact h
  · exact h

theorem runInit_inv (command logFile : String) (timeout interval : Int) (i : InitEnv) :
    Inv (runInit (NewMonitor command logFile timeout interval) World.empty i) := by
  have hrc := startProcess_retryCount (NewMonitor command logFile timeout interval) World.empty
    i.kill i.spawnOk i.startNow
  have hmx := startProcess_maxRetries (NewMonitor command logFile timeout interval) World.empty
    i.kill i.spawnOk i.startNow
  have hcn := startProcess_cancelled (NewMonitor command logFile timeout interval) World.empty
    i.kill i.spawnOk i.startNow
  have her := startProcess_err (NewMonitor command logFile timeout interval) World.empty
    i.kill i.spawnOk i.startNow
  have n1 : (NewMonitor command logFile timeout interval).retryCount = 0 := rfl
  have n2 : (NewMonitor command logFile timeout interval).maxRetries = 3 := rfl
  have n3 : (NewMonitor command logFile timeout interval).cancelled = false := rfl
  unfold runInit
  dsimp only
  generalize startProcess (NewMonitor command logFile timeout interval) World.empty
    i.kill i.spawnOk i.startNow = r at *
  generalize NewMonitor command logFile timeout interval = m at *
  generalize i.spawnOk = ok at *
  by_cases hv : i.validateOk = true
  · simp only [hv, Bool.not_true, Bool.false_eq_true, if_false]
    cases ok
    · simp only [Bool.false_eq_true, if_false] at hrc
      simp only [her, Bool.not_false, if_true]
      exact inv_intro _ _ _ _ _ (by rw [hmx, n2]) (by omega) (by omega) (by decide)
        (fun h => by cases h)
    · simp only [if_true] at hrc
      simp only [her, Bool.not_true, Bool.false_eq_true, if_false]
      split_ifs
      · exact inv_intro _ _ _ _ _ (by rw [hmx, n2]) (by omega) (by omega) (by decide)
          (fun h => by cases h)
      · exact inv_intro _ _ _ _ _ (by rw [hmx, n2]) (by omega) (by omega) (by decide)
          (fun _ => ⟨by omega, by rw [hcn, n3]⟩)
  · simp only [hv, Bool.not_false, if_true]
    exact inv_intro _ _ _ _ _ n2 (by omega) (by omega) (by decide) (fun h => by cases h)

theorem foldl_step_inv (evs : List Event) (s : RunState) (h : Inv s) :
    Inv (evs.foldl step s) := by
  induction evs generalizing s with
  | nil => exact h
  | cons ev rest ih => exact ih _ (step_inv s ev h)

theorem reachable_inv (s : RunState) (h : Reachable s) : Inv s := by
  obtain ⟨command, logFile, timeout, interval, i, evs, rfl⟩ := h
  exact foldl_step_inv evs _ (runInit_inv command logFile timeout interval i)

/-! ## C1: the retry counter stays within its bounds -/

/-- C1: in every state the control loop `Run` reaches from a freshly constructed
Monitor, under any sequence of events and any answers of the system (spawn
results, liveness probes, log probes), `0 ≤ retryCount ≤ maxRetries`, and
`maxRetries` is 3. -/
theorem retryCount_bounded (s : RunState) (h : Reachable s) :
    0 ≤ s.m.retryCount ∧ s.m.retryCount ≤ s.m.maxRetries ∧ s.m.maxRetries = 3 := by
  obtain ⟨hmax, h0, h3, _, _⟩ := reachable_inv s h
  exact ⟨h0, by rw [hmax]; exact h3, hmax⟩

/-- Witness for C1: the bound at the state reached after three ticks whose
restart fails to spawn, where the counter has reached 3. -/
theorem retryCount_bounded_witness :
    (Run silentMonitor goodInit
        [Event.tick (deadTickSpawnFails 1001), Event.tick (deadTickSpawnFails 1007),
          Event.tick (deadTickSpawnFails 1018)]).m.retryCount = 3
    ∧ (0 ≤ (Run silentMonitor goodInit
        [Event.tick (deadTickSpawnFails 1001), Event.tick (deadTickSpawnFails 1007),
          Event.tick (deadTickSpawnFails 1018)]).m.retryCount
      ∧ (Run silentMonitor goodInit
        [Event.tick (deadTickSpawnFails 1001), Event.tick (deadTickSpawnFails 1007),
          Event.tick (deadTickSpawnFails 1018)]).m.retryCount
        ≤ (Run silentMonitor goodInit
        [Event.tick (deadTickSpawnFails 1001), Event.tick (deadTickSpawnFails 1007),
          Event.tick (deadTickSpawnFails 1018)]).m.maxRetries
      ∧ (Run silentMonitor goodInit
        [Event.tick (deadTickSpawnFails 1001), Event.tick (deadTickSpawnFails 1007),
          Event.tick (deadTickSpawnFails 1018)]).m.maxRetries = 3) :=
  ⟨by decide,
    retryCount_bounded _ ⟨"sleep 1000", "/tmp/app.log", 3, 1, goodInit,
      [Event.tick (deadTickSpawnFails 1001), Event.tick (deadTickSpawnFails 1007),
        Event.tick (deadTickSpawnFails 1018)], rfl⟩⟩

/-! ## C3, C4, C10: the health check -/

/-- C3: for a Monitor with a recorded baseline and a successful log probe that
shows neither growth nor a newer modification time, `checkLogs` reports
unhealthy exactly when the elapsed time `time.Since(lastModTime)` is strictly
greater than the timeout (at an elapsed time equal to the timeout, or less, it
reports healthy), and in both outcomes the Monitor is left as it was, the
waiting notice included.  For a timeout inside the range of durations and
below its maximum, and so for every timeout `NewMonitor` builds from a number
of seconds, the elapsed time compares with the timeout as the exact difference
`now - lastModTime` does. -/
theorem checkLogs_timeout_boundary (m : Monitor) (modTime size now : Int)
    (hbase : m.lastModTime ≠ 0) (hsize : size ≤ m.lastLogSize)
    (hmod : ¬ modTime > m.lastModTime) :
    ((checkLogs m (some (modTime, size)) now).ok = some false
        ↔ timeSince now m.lastModTime > m.timeout)
    ∧ (timeSince now m.lastModTime ≤ m.timeout →
        (checkLogs m (some (modTime, size)) now).ok = some true)
    ∧ (checkLogs m (some (modTime, size)) now).m = m
    ∧ (minDuration ≤ m.timeout → m.timeout < maxDuration →
        (timeSince now m.lastModTime > m.timeout ↔ now - m.lastModTime > m.timeout))
    ∧ (∀ seconds : Int, m.timeout = wrap64 (seconds * Second) →
        (timeSince now m.lastModTime > m.timeout ↔ now - m.lastModTime > m.timeout)) := by
  have hs : ¬ size > m.lastLogSize := not_lt.mpr hsize
  have hexact : minDuration ≤ m.timeout → m.timeout < maxDuration →
      (timeSince now m.lastModTime > m.timeout ↔ now - m.lastModTime > m.timeout) := by
    intro h1 h2
    unfold timeSince timeSub
    unfold minDuration at h1
    unfold maxDuration at h2
    simp only [maxDuration, minDuration]
    split_ifs <;> constructor <;> intro h <;> omega
  refine ⟨?_, ?_, ?_, hexact, ?_⟩
  · unfold checkLogs
    simp only [hbase, hs, hmod, if_false]
    split_ifs <;> simp_all
  · intro h
    have h' : ¬ timeSince now m.lastModTime > m.timeout := not_lt.mpr h
    unfold checkLogs
    simp only [hbase, hs, hmod, h', if_false]
    split_ifs <;> rfl
  · unfold checkLogs
    simp only [hbase, hs, hmod, if_false]
    split_ifs <;> rfl
  · intro seconds ht
    apply hexact
    · rw [ht]; unfold wrap64 minDuration Second; omega
    · rw [ht]; unfold wrap64 maxDuration Second; omega

/-- Witness for C3: timeout 60 s, baseline at 1000 s, unchanged log; at exactly
60 s of silence the check is healthy, one nanosecond later it is not. -/
theorem checkLogs_timeout_boundary_witness :
    (checkLogs busyMonitor (some (900 * Second, 100)) (1060 * Second)).ok = some true
    ∧ (checkLogs busyMonitor (some (900 * Second, 100)) (1060 * Second + 1)).ok = some false
    ∧ (checkLogs busyMonitor (some (900 * Second, 100)) (1060 * Second + 1)).m = busyMonitor :=
  ⟨(checkLogs_timeout_boundary busyMonitor (900 * Second) 100 (1060 * Second)
      (by decide) (by decide) (by decide)).2.1 (by decide),
    (checkLogs_timeout_boundary busyMonitor (900 * Second) 100 (1060 * Second + 1)
      (by decide) (by decide) (by decide)).1.mpr (by decide),
    (checkLogs_timeout_boundary busyMonitor (900 * Second) 100 (1060 * Second + 1)
      (by decide) (by decide) (by decide)).2.2.1⟩

/-- C4: for a Monitor with a recorded baseline and a successful log probe
`(modTime, size)`: when `size > lastLogSize`, `checkLogs` reports healthy, sets
`retryCount` to 0, `lastLogSize` to `size` and `lastModTime` to the current
time; otherwise, when `modTime` is strictly after `lastModTime`, it reports
healthy, sets `retryCount` to 0, `lastLogSize` to `size` and `lastModTime` to
`modTime`. -/
theorem checkLogs_activity (m : Monitor) (modTime size now : Int)
    (hbase : m.lastModTime ≠ 0) :
    (size > m.lastLogSize →
        (checkLogs m (some (modTime, size)) now).ok = some true
        ∧ (checkLogs m (some (modTime, size)) now).m.retryCount = 0
        ∧ (checkLogs m (some (modTime, size)) now).m.lastLogSize = size
        ∧ (checkLogs m (some (modTime, size)) now).m.lastModTime = now)
    ∧ (¬ size > m.lastLogSize → modTime > m.lastModTime →
        (checkLogs m (some (modTime, size)) now).ok = some true
        ∧ (checkLogs m (some (modTime, size)) now).m.retryCount = 0
        ∧ (checkLogs m (some (modTime, size)) now).m.lastLogSize = size
        ∧ (checkLogs m (some (modTime, size)) now).m.lastModTime = modTime) := by
  constructor
  · intro hg
    simp [checkLogs, hbase, hg]
  · intro hs hm
    simp [checkLogs, hbase, hs, hm]

/-- Witness for C4: a log growing from 100 to 150 bytes resets a `retryCount`
of 2 to 0 on that check. -/
theorem checkLogs_activity_witness :
    busyMonitor.lastLogSize = 100 ∧ busyMonitor.retryCount = 2
    ∧ (checkLogs busyMonitor (some (900 * Second, 150)) (1010 * Second)).ok = some true
    ∧ (checkLogs busyMonitor (some (900 * Second, 150)) (1010 * Second)).m.retryCount = 0
    ∧ (checkLogs busyMonitor (some (900 * Second, 150)) (1010 * Second)).m.lastLogSize = 150
    ∧ (checkLogs busyMonitor (some (900 * Second, 150)) (1010 * Second)).m.lastModTime
        = 1010 * Second :=
  ⟨rfl, rfl,
    (checkLogs_activity busyMonitor (900 * Second) 150 (1010 * Second) (by decide)).1
      (by decide)⟩

/-! ## C10: a failed log probe -/

/-- C10: when the log probe fails, `checkLogs` returns an error and leaves the
Monitor unchanged; the tick of the control loop in which this happens (the
child being alive, so that the check runs) changes nothing but the record of
the liveness probe: no signal other than signal 0 is sent, nothing is waited
for or spawned, the Monitor, `retryCount` included, and the stable counter are
unchanged, and the loop goes on. -/
theorem probe_failure_no_restart (m : Monitor) (s : RunState) (e : TickEnv) (pid : Nat)
    (now : Int) (hl : s.phase = Phase.looping) (hp : s.m.process = some { proc := some pid })
    (hc : s.m.cancelled = false) (ha : e.probe = ProbeEnv.ok) (hs : e.stat = none) :
    (checkLogs m none now).ok = none
    ∧ (checkLogs m none now).m = m
    ∧ step s (Event.tick e)
        = { s with w := s.w.send Signal.sigzero pid, waitTime := 0 } := by
  refine ⟨rfl, rfl, ?_⟩
  unfold step tick isProcessRunning
  simp [hl, hp, hc, ha, hs, checkLogs]

/-- Witness for C10: a running child and an unreadable log file. -/
theorem probe_failure_no_restart_witness :
    (checkLogs busyMonitor none (1001 * Second)).ok = none
    ∧ (checkLogs busyMonitor none (1001 * Second)).m = busyMonitor
    ∧ step runningState (Event.tick statFailsTick)
        = { runningState with w := runningState.w.send Signal.sigzero 0, waitTime := 0 } :=
  probe_failure_no_restart busyMonitor runningState statFailsTick 0 (1001 * Second)
    (by decide) (by decide) (by decide) (by decide) (by decide)

/-! ## Frame lemmas for a restart -/

theorem wrap64_of_range (x : Int) (h1 : -9223372036854775808 ≤ x)
    (h2 : x < 9223372036854775808) : wrap64 x = x := by
  unfold wrap64
  omega

theorem killProcessUnsafe_attempts (m : Monitor) (w : World) (k : KillEnv) :
    (killProcessUnsafe m w k).2.attempts = w.attempts
    ∧ (killProcessUnsafe m w k).2.nextPid = w.nextPid := by
  unfold killProcessUnsafe
  split
  · split
    · split <;> exact ⟨rfl, rfl⟩
    · exact ⟨rfl, rfl⟩
    · exact ⟨rfl, rfl⟩
    · split <;> exact ⟨rfl, rfl⟩
  · exact ⟨rfl, rfl⟩

theorem isProcessRunning_attempts (m : Monitor) (w : World) (p : ProbeEnv) :
    (isProcessRunning m w p).w.attempts = w.attempts
    ∧ (isProcessRunning m w p).w.nextPid = w.nextPid := by
  unfold isProcessRunning
  split
  · split
    · exact ⟨rfl, rfl⟩
    · split
      · exact ⟨rfl, rfl⟩
      · dsimp only
        split <;> exact ⟨rfl, rfl⟩
  · exact ⟨rfl, rfl⟩

theorem isProcessRunning_baseline (m : Monitor) (w : World) (p : ProbeEnv) :
    (isProcessRunning m w p).m.lastLogSize = m.lastLogSize
    ∧ (isProcessRunning m w p).m.lastModTime = m.lastModTime := by
  rcases isProcessRunning_monitor m w p with h | h <;> rw [h] <;> exact ⟨rfl, rfl⟩

theorem killProcessUnsafe_baseline (m : Monitor) (w : World) (k : KillEnv) :
    (killProcessUnsafe m w k).1.lastLogSize = m.lastLogSize
    ∧ (killProcessUnsafe m w k).1.lastModTime = m.lastModTime := by
  rcases killProcessUnsafe_monitor m w k with h | h <;> rw [h] <;> exact ⟨rfl, rfl⟩

theorem startProcess_attempts (m : Monitor) (w : World) (k : KillEnv) (ok : Bool) (now : Int) :
    (startProcess m w k ok now).w.attempts = w.attempts + 1 := by
  have hk := (killProcessUnsafe_attempts m w k).1
  unfold startProcess World.spawn
  cases ok <;> cases m.process <;> simp [hk]

theorem startProcess_baseline (m : Monitor) (w : World) (k : KillEnv) (ok : Bool) (now : Int) :
    (startProcess m w k ok now).m.lastLogSize = m.lastLogSize
    ∧ (startProcess m w k ok now).m.lastModTime = if ok then now else m.lastModTime := by
  have hk := killProcessUnsafe_baseline m w k
  unfold startProcess
  cases ok <;> cases m.process <;> simp [hk]

theorem restart_stable (m : Monitor) (w : World) (e : TickEnv) :
    (restart m w e).stableIterations = 0 := by
  unfold restart
  dsimp only
  split_ifs <;> rfl

theorem restart_baseline (m : Monitor) (w : World) (e : TickEnv) :
    (restart m w e).m.lastLogSize = m.lastLogSize
    ∧ ((restart m w e).m.lastModTime = m.lastModTime
        ∨ (restart m w e).m.lastModTime = e.startNow) := by
  have hb := startProcess_baseline m w e.kill e.spawnOk e.startNow
  unfold restart
  dsimp only
  generalize startProcess m w e.kill e.spawnOk e.startNow = r at *
  split_ifs
  · exact ⟨rfl, Or.inl rfl⟩
  · refine ⟨hb.1, ?_⟩
    show r.m.lastModTime = _ ∨ r.m.lastModTime = _
    rw [hb.2]; split_ifs <;> simp
  · refine ⟨hb.1, ?_⟩
    show r.m.lastModTime = _ ∨ r.m.lastModTime = _
    rw [hb.2]; split_ifs <;> simp
  · refine ⟨hb.1, ?_⟩
    show r.m.lastModTime = _ ∨ r.m.lastModTime = _
    rw [hb.2]; split_ifs <;> simp

theorem restart_attempts (m : Monitor) (w : World) (e : TickEnv) :
    (canRetry m = true → (restart m w e).w.attempts = w.attempts + 1)
    ∧ (canRetry m = false →
        (restart m w e).w = w ∧ (restart m w e).phase = Phase.retriesExceeded) := by
  have ha := startProcess_attempts m w e.kill e.spawnOk e.startNow
  unfold restart
  dsimp only
  generalize startProcess m w e.kill e.spawnOk e.startNow = r at *
  constructor
  · intro h
    simp only [h, Bool.not_true, Bool.false_eq_true, if_false]
    split_ifs <;> exact ha
  · intro h
    simp [h]

theorem restart_spawn_fails (m : Monitor) (w : World) (e : TickEnv)
    (hc : m.retryCount < m.maxRetries) (hs : e.spawnOk = false) :
    (restart m w e).m.retryCount = m.retryCount + 1
    ∧ (restart m w e).m.maxRetries = m.maxRetries
    ∧ (restart m w e).m.process = some { proc := none }
    ∧ (restart m w e).m.cancelled = (m.cancelled || decide (m.maxRetries ≤ m.retryCount + 1))
    ∧ (m.retryCount + 1 < m.maxRetries →
        (restart m w e).waitTime = wrap64 (wrap64 ((m.retryCount + 1) * Second) * 5)
        ∧ (restart m w e).phase = Phase.looping) := by
  have hk1 := killProcessUnsafe_retryCount m w e.kill
  have hk2 := killProcessUnsafe_maxRetries m w e.kill
  have hk3 : (killProcessUnsafe m w e.kill).1.cancelled = m.cancelled := by
    rcases killProcessUnsafe_monitor m w e.kill with h | h <;> rw [h]
  unfold restart startProcess
  have hnc : ¬ m.maxRetries ≤ m.retryCount := by omega
  by_cases hlt : m.retryCount + 1 < m.maxRetries
  · have hnc2 : ¬ m.maxRetries ≤ m.retryCount + 1 := by omega
    cases hp : m.process <;>
      simp [hs, canRetry, cancel, hk1, hk2, hk3, hlt, hp, hnc, hnc2]
  · have hnc2 : m.maxRetries ≤ m.retryCount + 1 := by omega
    cases hp : m.process <;>
      simp [hs, canRetry, cancel, hk1, hk2, hk3, hlt, hp, hnc, hnc2]

theorem tick_of_needRestart (s : RunState) (e : TickEnv) (h : needRestart s e = true) :
    tick s e
      = restart (isProcessRunning s.m s.w e.probe).m (isProcessRunning s.m s.w e.probe).w e := by
  unfold needRestart at h
  unfold tick
  dsimp only
  by_cases ha : (isProcessRunning s.m s.w e.probe).alive = true
  · simp only [ha, Bool.not_true, Bool.false_or, beq_iff_eq] at h
    have hm := checkLogs_unhealthy_monitor (isProcessRunning s.m s.w e.probe).m e.stat e.now
      (by rw [h]; simp)
    simp only [ha, if_true, h, hm]
  · simp only [ha, Bool.false_eq_true, if_false]

/-! ## C8: a dead child is restarted before any health check -/

/-- C8: in a tick of the control loop in which the liveness probe reports the
child not alive, the health check is not run (the outcome of the tick does not
depend on the log probe nor on its clock reading; `lastLogSize` keeps its
value, and `lastModTime` keeps its value unless the restart sets it to its own
clock reading), the stable counter is 0 afterwards, and whenever
`retryCount < maxRetries` the tick calls `startProcess` (one more spawn
attempt is made); otherwise nothing is spawned and `Run` gives up. -/
theorem dead_child_restarts_first (s : RunState) (e : TickEnv)
    (hd : (isProcessRunning s.m s.w e.probe).alive = false) :
    (∀ (stat : Option (Int × Int)) (now : Int),
        tick s { e with stat := stat, now := now } = tick s e)
    ∧ (tick s e).m.lastLogSize = s.m.lastLogSize
    ∧ ((tick s e).m.lastModTime = s.m.lastModTime ∨ (tick s e).m.lastModTime = e.startNow)
    ∧ (tick s e).stableIterations = 0
    ∧ (s.m.retryCount < s.m.maxRetries → (tick s e).w.attempts = s.w.attempts + 1)
    ∧ (¬ s.m.retryCount < s.m.maxRetries →
        (tick s e).w.attempts = s.w.attempts ∧ (tick s e).phase = Phase.retriesExceeded) := by
  have hn : needRestart s e = true := by unfold needRestart; rw [hd]; rfl
  have ht := tick_of_needRestart s e hn
  have hb := restart_baseline (isProcessRunning s.m s.w e.probe).m
    (isProcessRunning s.m s.w e.probe).w e
  have hpb := isProcessRunning_baseline s.m s.w e.probe
  have hpa := isProcessRunning_attempts s.m s.w e.probe
  have hra := restart_attempts (isProcessRunning s.m s.w e.probe).m
    (isProcessRunning s.m s.w e.probe).w e
  have hprc := isProcessRunning_retryCount s.m s.w e.probe
  have hpmx := isProcessRunning_maxRetries s.m s.w e.probe
  refine ⟨?_, ?_, ?_, ?_, ?_, ?_⟩
  · intro stat now
    have hn2 : needRestart s { e with stat := stat, now := now } = true := by
      unfold needRestart; dsimp only; rw [hd]; rfl
    rw [ht, tick_of_needRestart s _ hn2]
    rfl
  · rw [ht, hb.1, hpb.1]
  · rw [ht, ← hpb.2]; exact hb.2
  · rw [ht]; exact restart_stable _ _ _
  · intro hlt
    rw [ht, hra.1 (by unfold canRetry; rw [hprc, hpmx]; exact decide_eq_true hlt), hpa.1]
  · intro hlt
    have hcr : canRetry (isProcessRunning s.m s.w e.probe).m = false := by
      unfold canRetry; rw [hprc, hpmx]; exact decide_eq_false hlt
    rw [ht, (hra.2 hcr).1, (hra.2 hcr).2, hpa.1]
    exact ⟨rfl, rfl⟩

/-- Witness for C8: the tick after the child of the running state was killed. -/
theorem dead_child_restarts_first_witness :
    (tick killedState killedChildTick).stableIterations = 0
    ∧ (tick killedState killedChildTick).m.lastLogSize = killedState.m.lastLogSize
    ∧ (tick killedState killedChildTick).w.attempts = killedState.w.attempts + 1 :=
  ⟨(dead_child_restarts_first killedState killedChildTick (by decide)).2.2.2.1,
    (dead_child_restarts_first killedState killedChildTick (by decide)).2.1,
    (dead_child_restarts_first killedState killedChildTick (by decide)).2.2.2.2.1 (by decide)⟩

/-! ## C6: the backoff after a failed restart -/

theorem step_tick (s : RunState) (e : TickEnv) (hl : s.phase = Phase.looping) :
    step s (Event.tick e) = tick s e := by
  unfold step
  simp [hl]

/-- C6: in a reachable state of the loop, when a tick needs a restart, the
spawn fails and retries remain once the failure is counted, the tick sleeps
exactly `retryCount * 5` seconds, with `retryCount` as it is after the
failure.  Starting from `retryCount = 0`, two such ticks in a row sleep 5 and
then 10 seconds, the second strictly longer than the first. -/
theorem backoff_linear (s : RunState) (e : TickEnv) (h : Reachable s)
    (hl : s.phase = Phase.looping) (hn : needRestart s e = true) (hs : e.spawnOk = false)
    (hr : s.m.retryCount + 1 < s.m.maxRetries) :
    (step s (Event.tick e)).m.retryCount = s.m.retryCount + 1
    ∧ (step s (Event.tick e)).phase = Phase.looping
    ∧ (step s (Event.tick e)).waitTime = (step s (Event.tick e)).m.retryCount * (5 * Second)
    ∧ (s.m.retryCount = 0 → ∀ e2 : TickEnv, e2.spawnOk = false →
        (step s (Event.tick e)).waitTime = 5 * Second
        ∧ (step (step s (Event.tick e)) (Event.tick e2)).waitTime = 10 * Second
        ∧ (step s (Event.tick e)).waitTime
            < (step (step s (Event.tick e)) (Event.tick e2)).waitTime) := by
  obtain ⟨hmax, h0, _, _, _⟩ := reachable_inv s h
  have hprc := isProcessRunning_retryCount s.m s.w e.probe
  have hpmx := isProcessRunning_maxRetries s.m s.w e.probe
  have hst := step_tick s e hl
  have ht := tick_of_needRestart s e hn
  obtain ⟨f1, f2, f3, f4, f5⟩ := restart_spawn_fails (isProcessRunning s.m s.w e.probe).m
    (isProcessRunning s.m s.w e.probe).w e (by rw [hprc, hpmx]; omega) hs
  simp only [hprc, hpmx] at f1 f2 f4 f5
  obtain ⟨f5, f6⟩ := f5 hr
  rw [← ht, ← hst] at f1 f2 f3 f4 f5 f6
  have hw : (step s (Event.tick e)).waitTime = (s.m.retryCount + 1) * (5 * Second) := by
    rw [f5, wrap64_of_range ((s.m.retryCount + 1) * Second) (by unfold Second; omega)
      (by unfold Second; omega), wrap64_of_range _ (by unfold Second; omega)
      (by unfold Second; omega)]
    unfold Second
    omega
  refine ⟨f1, f6, by rw [hw, f1], ?_⟩
  intro hz e2 hs2
  have hn2 : needRestart (step s (Event.tick e)) e2 = true := by
    unfold needRestart isProcessRunning
    rw [f3]
    rfl
  have hst2 := step_tick (step s (Event.tick e)) e2 f6
  have ht2 := tick_of_needRestart (step s (Event.tick e)) e2 hn2
  have hq1 := isProcessRunning_retryCount (step s (Event.tick e)).m (step s (Event.tick e)).w
    e2.probe
  have hq2 := isProcessRunning_maxRetries (step s (Event.tick e)).m (step s (Event.tick e)).w
    e2.probe
  obtain ⟨_, _, _, _, g5⟩ := restart_spawn_fails
    (isProcessRunning (step s (Event.tick e)).m (step s (Event.tick e)).w e2.probe).m
    (isProcessRunning (step s (Event.tick e)).m (step s (Event.tick e)).w e2.probe).w e2
    (by rw [hq1, hq2, f1, f2]; omega) hs2
  simp only [hq1, hq2, f1, f2, hz, hmax] at g5
  obtain ⟨g5, _⟩ := g5 (by decide)
  rw [← ht2, ← hst2] at g5
  have hw1 : (step s (Event.tick e)).waitTime = 5 * Second := by rw [hw, hz]; rfl
  have hw2 : (step (step s (Event.tick e)) (Event.tick e2)).waitTime = 10 * Second := by
    rw [g5]; decide
  refine ⟨hw1, hw2, ?_⟩
  rw [hw1, hw2]
  decide

/-- Witness for C6: from the running state, two ticks in a row find the child
dead and fail to respawn; the loop sleeps 5 s, then 10 s. -/
theorem backoff_linear_witness :
    (step killedState (Event.tick (deadTickSpawnFails 1001))).waitTime = 5 * Second
    ∧ (step (step killedState (Event.tick (deadTickSpawnFails 1001)))
        (Event.tick (deadTickSpawnFails 1007))).waitTime = 10 * Second
    ∧ (step killedState (Event.tick (deadTickSpawnFails 1001))).waitTime
        < (step (step killedState (Event.tick (deadTickSpawnFails 1001)))
            (Event.tick (deadTickSpawnFails 1007))).waitTime :=
  (backoff_linear killedState (deadTickSpawnFails 1001)
    ⟨"python3 app.py > /tmp/app.log 2>&1", "/tmp/app.log", 5, 1, goodInit,
      [Event.childExit 0], rfl⟩
    (by decide) (by decide) (by decide) (by decide)).2.2.2 (by decide)
    (deadTickSpawnFails 1007) (by decide)

/-! ## C2: a child whose log stays silent -/

theorem restart_spawn_ok (m : Monitor) (w : World) (e : TickEnv)
    (hc : m.retryCount < m.maxRetries) (hs : e.spawnOk = true) :
    (restart m w e).phase = Phase.looping
    ∧ (restart m w e).m.retryCount = m.retryCount
    ∧ (restart m w e).m.maxRetries = m.maxRetries
    ∧ (restart m w e).m.cancelled = m.cancelled
    ∧ (restart m w e).w.attempts = w.attempts + 1 := by
  have hrc := startProcess_retryCount m w e.kill e.spawnOk e.startNow
  have hmx := startProcess_maxRetries m w e.kill e.spawnOk e.startNow
  have hcn := startProcess_cancelled m w e.kill e.spawnOk e.startNow
  have her := startProcess_err m w e.kill e.spawnOk e.startNow
  have hat := startProcess_attempts m w e.kill e.spawnOk e.startNow
  have hcr : canRetry m = true := by unfold canRetry; exact decide_eq_true hc
  unfold restart
  dsimp only
  generalize startProcess m w e.kill e.spawnOk e.startNow = r at *
  rw [hs] at hrc her
  simp only [if_true] at hrc
  simp only [hcr, her, Bool.not_true, Bool.false_eq_true, if_false]
  exact ⟨trivial, hrc, hmx, hcn, hat⟩

theorem tick_spawn_ok (s : RunState) (e : TickEnv) (hs : e.spawnOk = true)
    (h : s.phase = Phase.looping ∧ s.m.retryCount = 0 ∧ s.m.maxRetries = 3
      ∧ s.m.cancelled = false) :
    (tick s e).phase = Phase.looping ∧ (tick s e).m.retryCount = 0
    ∧ (tick s e).m.maxRetries = 3 ∧ (tick s e).m.cancelled = false := by
  obtain ⟨hl, h0, hmax, hc⟩ := h
  have pr := isProcessRunning_retryCount s.m s.w e.probe
  have pm := isProcessRunning_maxRetries s.m s.w e.probe
  have pc := isProcessRunning_cancelled s.m s.w e.probe
  have cm := checkLogs_maxRetries (isProcessRunning s.m s.w e.probe).m e.stat e.now
  have cc := checkLogs_cancelled (isProcessRunning s.m s.w e.probe).m e.stat e.now
  have cr := checkLogs_retryCount (isProcessRunning s.m s.w e.probe).m e.stat e.now
  unfold tick
  dsimp only
  generalize isProcessRunning s.m s.w e.probe = p at *
  generalize checkLogs p.m e.stat e.now = r at *
  have hr0 : r.m.retryCount = 0 := by omega
  have hrm : r.m.maxRetries = 3 := by rw [cm, pm, hmax]
  have hrc : r.m.cancelled = false := by rw [cc, pc, hc]
  by_cases ha : p.alive = true
  · simp only [ha, if_true]
    split
    · exact ⟨hl, hr0, hrm, hrc⟩
    · obtain ⟨g1, g2, g3, g4, _⟩ := restart_spawn_ok r.m p.w e (by rw [hr0, hrm]; decide) hs
      exact ⟨g1, by rw [g2, hr0], by rw [g3, hrm], by rw [g4, hrc]⟩
    · by_cases h10 : s.stableIterations + 1 ≥ 10
      · simp only [h10, if_true]
        exact ⟨hl, by rw [resetRetries_retryCount _ (by omega)],
          by rw [resetRetries_maxRetries, hrm], by rw [resetRetries_cancelled, hrc]⟩
      · simp only [h10, if_false]
        exact ⟨hl, hr0, hrm, hrc⟩
  · simp only [ha, Bool.false_eq_true, if_false]
    obtain ⟨g1, g2, g3, g4, _⟩ := restart_spawn_ok p.m p.w e (by rw [pr, pm, h0, hmax]; decide) hs
    exact ⟨g1, by rw [g2, pr, h0], by rw [g3, pm, hmax], by rw [g4, pc, hc]⟩

theorem ticks_spawn_ok (es : List TickEnv) (s : RunState)
    (hs : ∀ e ∈ es, e.spawnOk = true)
    (h : s.phase = Phase.looping ∧ s.m.retryCount = 0 ∧ s.m.maxRetries = 3
      ∧ s.m.cancelled = false) :
    ((es.map Event.tick).foldl step s).phase = Phase.looping
    ∧ ((es.map Event.tick).foldl step s).m.retryCount = 0
    ∧ ((es.map Event.tick).foldl step s).m.maxRetries = 3
    ∧ ((es.map Event.tick).foldl step s).m.cancelled = false := by
  induction es generalizing s with
  | nil => exact h
  | cons e rest ih =>
    simp only [List.map_cons, List.foldl_cons]
    apply ih
    · intro e' he'
      exact hs e' (List.mem_cons_of_mem _ he')
    · rw [step_tick s e h.1]
      exact tick_spawn_ok s e (hs e (List.mem_cons_self _ _)) h

theorem runInit_spawn_ok (command logFile : String) (timeout interval : Int) (i : InitEnv)
    (hv : i.validateOk = true) (hi : i.spawnOk = true)
    (hpos : ¬ wrap64 (interval * Second) ≤ 0) :
    (runInit (NewMonitor command logFile timeout interval) World.empty i).phase = Phase.looping
    ∧ (runInit (NewMonitor command logFile timeout interval) World.empty i).m.retryCount = 0
    ∧ (runInit (NewMonitor command logFile timeout interval) World.empty i).m.maxRetries = 3
    ∧ (runInit (NewMonitor command logFile timeout interval) World.empty i).m.cancelled
        = false := by
  unfold runInit startProcess NewMonitor
  simp [hv, hi, hpos]

/-- C2, as the code has it: for a command that always spawns successfully,
with timeout 3 s and interval 1 s and whatever its log file does (in particular
when it never changes after the start), after any number of ticks `Run` is
still in its loop, not cancelled, with `retryCount = 0`: it has not
transitioned to Failed; and every further tick that needs a restart (a health
timeout, or a dead child) makes one more spawn attempt and stays in the loop
with `retryCount = 0`. -/
theorem silent_log_never_failed (command logFile : String) (i : InitEnv) (es : List TickEnv)
    (hv : i.validateOk = true) (hi : i.spawnOk = true) (hs : ∀ e ∈ es, e.spawnOk = true) :
    (Run (NewMonitor command logFile 3 1) i (es.map Event.tick)).phase = Phase.looping
    ∧ (Run (NewMonitor command logFile 3 1) i (es.map Event.tick)).m.retryCount = 0
    ∧ (Run (NewMonitor command logFile 3 1) i (es.map Event.tick)).m.cancelled = false
    ∧ ∀ e : TickEnv, e.spawnOk = true →
        needRestart (Run (NewMonitor command logFile 3 1) i (es.map Event.tick)) e = true →
        (step (Run (NewMonitor command logFile 3 1) i (es.map Event.tick)) (Event.tick e)).w.attempts
            = (Run (NewMonitor command logFile 3 1) i (es.map Event.tick)).w.attempts + 1
        ∧ (step (Run (NewMonitor command logFile 3 1) i (es.map Event.tick)) (Event.tick e)).phase
            = Phase.looping
        ∧ (step (Run (NewMonitor command logFile 3 1) i (es.map Event.tick))
            (Event.tick e)).m.retryCount = 0 := by
  have hg := ticks_spawn_ok es _ hs
    (runInit_spawn_ok command logFile 3 1 i hv hi (by decide))
  unfold Run
  generalize (es.map Event.tick).foldl step (runInit (NewMonitor command logFile 3 1)
    World.empty i) = S at *
  obtain ⟨hl, h0, hmax, hc⟩ := hg
  refine ⟨hl, h0, hc, ?_⟩
  intro e he hn
  rw [step_tick S e hl, tick_of_needRestart S e hn]
  have pr := isProcessRunning_retryCount S.m S.w e.probe
  have pm := isProcessRunning_maxRetries S.m S.w e.probe
  have pa := (isProcessRunning_attempts S.m S.w e.probe).1
  obtain ⟨g1, g2, _, _, g5⟩ := restart_spawn_ok (isProcessRunning S.m S.w e.probe).m
    (isProcessRunning S.m S.w e.probe).w e (by rw [pr, pm, h0, hmax]; decide) he
  exact ⟨by rw [g5, pa], g1, by rw [g2, pr, h0]⟩

/-- Counterexample for C2: timeout 3 s, interval 1 s, every spawn succeeds and
the log file stays empty and untouched.  The health check times out at ticks
4, 8, 12 and 16.  After 12 ticks three restarts have been made (four spawn
attempts with the first start) and `Run` is still in its loop, not cancelled,
with `retryCount = 0`; at tick 16 it restarts a fourth time. -/
theorem silent_log_keeps_restarting :
    silentMonitor.timeout = 3 * Second ∧ silentMonitor.interval = 1 * Second
    ∧ (Run silentMonitor goodInit (silentTicks 3)).w.attempts = 1
    ∧ (checkLogs (Run silentMonitor goodInit (silentTicks 3)).m (silentTick 4).stat
        (silentTick 4).now).ok = some false
    ∧ (Run silentMonitor goodInit (silentTicks 4)).w.attempts = 2
    ∧ (Run silentMonitor goodInit (silentTicks 8)).w.attempts = 3
    ∧ (Run silentMonitor goodInit (silentTicks 12)).w.attempts = 4
    ∧ (Run silentMonitor goodInit (silentTicks 12)).phase = Phase.looping
    ∧ (Run silentMonitor goodInit (silentTicks 12)).phase.isFailed = false
    ∧ (Run silentMonitor goodInit (silentTicks 12)).m.cancelled = false
    ∧ (Run silentMonitor goodInit (silentTicks 12)).m.retryCount = 0
    ∧ (Run silentMonitor goodInit (silentTicks 16)).w.attempts = 5
    ∧ (Run silentMonitor goodInit (silentTicks 16)).phase = Phase.looping := by
  decide

/-- Witness for C2 as corrected: the silent-log execution after 16 ticks. -/
theorem silent_log_never_failed_witness :
    (Run (NewMonitor "sleep 1000" "/tmp/app.log" 3 1) goodInit
        ((List.map silentTick [1, 2, 3, 4, 5, 6, 7, 8, 9, 10, 11, 12, 13, 14, 15, 16]).map
          Event.tick)).phase = Phase.looping
    ∧ (Run (NewMonitor "sleep 1000" "/tmp/app.log" 3 1) goodInit
        ((List.map silentTick [1, 2, 3, 4, 5, 6, 7, 8, 9, 10, 11, 12, 13, 14, 15, 16]).map
          Event.tick)).m.retryCount = 0 :=
  ⟨(silent_log_never_failed "sleep 1000" "/tmp/app.log" goodInit
      (List.map silentTick [1, 2, 3, 4, 5, 6, 7, 8, 9, 10, 11, 12, 13, 14, 15, 16])
      (by decide) (by decide) (by decide)).1,
    (silent_log_never_failed "sleep 1000" "/tmp/app.log" goodInit
      (List.map silentTick [1, 2, 3, 4, 5, 6, 7, 8, 9, 10, 11, 12, 13, 14, 15, 16])
      (by decide) (by decide) (by decide)).2.1⟩

/-! ## C9: the stable-iteration counter -/

theorem checkLogs_quiet_retryCount (m : Monitor) (stat : Option (Int × Int)) (now : Int)
    (h1 : (checkLogs m stat now).notice ≠ LogNotice.grown)
    (h2 : (checkLogs m stat now).notice ≠ LogNotice.rewritten) :
    (checkLogs m stat now).m.retryCount = m.retryCount := by
  rcases stat with _ | ⟨a, b⟩
  · rfl
  · by_cases c1 : m.lastModTime = 0
    · simp [checkLogs, c1]
    · by_cases c2 : b > m.lastLogSize
      · simp [checkLogs, c1, c2] at h1
      · by_cases c3 : a > m.lastModTime
        · simp [checkLogs, c1, c2, c3] at h2
        · simp only [checkLogs, c1, c2, c3, if_false]
          split_ifs <;> rfl

theorem tick_healthy (s : RunState) (e : TickEnv) (h : healthyTick s e = true) :
    (tick s e).stableIterations
        = (if s.stableIterations + 1 ≥ 10 then 0 else s.stableIterations + 1)
    ∧ (0 ≤ s.m.retryCount → 0 ≤ (tick s e).m.retryCount)
    ∧ (s.m.retryCount = 0 → (tick s e).m.retryCount = 0)
    ∧ (0 ≤ s.m.retryCount → s.stableIterations + 1 ≥ 10 → (tick s e).m.retryCount = 0)
    ∧ (quietTick s e = true → s.stableIterations + 1 < 10 →
        (tick s e).m.retryCount = s.m.retryCount) := by
  have pr := isProcessRunning_retryCount s.m s.w e.probe
  have cr := checkLogs_retryCount (isProcessRunning s.m s.w e.probe).m e.stat e.now
  have cq := checkLogs_quiet_retryCount (isProcessRunning s.m s.w e.probe).m e.stat e.now
  unfold quietTick
  unfold healthyTick at h ⊢
  unfold tick
  dsimp only
  generalize isProcessRunning s.m s.w e.probe = p at *
  generalize checkLogs p.m e.stat e.now = r at *
  simp only [Bool.and_eq_true, beq_iff_eq] at h
  obtain ⟨ha, hok⟩ := h
  simp only [ha, hok, if_true]
  by_cases h10 : s.stableIterations + 1 ≥ 10
  · simp only [h10, if_true]
    refine ⟨trivial, ?_, ?_, ?_, ?_⟩
    · intro h0
      rw [resetRetries_retryCount _ (by omega)]
    · intro h0
      rw [resetRetries_retryCount _ (by omega)]
    · intro h0 _
      rw [resetRetries_retryCount _ (by omega)]
    · intro _ hlt
      omega
  · simp only [h10, if_false]
    refine ⟨trivial, ?_, ?_, ?_, ?_⟩
    · intro h0
      show 0 ≤ r.m.retryCount
      omega
    · intro h0
      show r.m.retryCount = 0
      omega
    · intro _ hge
      exact hge.elim
    · intro hq _
      show r.m.retryCount = s.m.retryCount
      simp only [Bool.and_eq_true, bne_iff_ne, ne_eq, Bool.true_and, beq_self_eq_true] at hq
      rw [cq hq.1 hq.2, pr]

theorem ticks_healthy (es : List TickEnv) (s : RunState) (h : allHealthy s es = true)
    (hst : s.stableIterations < 10) (h0 : 0 ≤ s.m.retryCount) :
    (ticks s es).stableIterations = (s.stableIterations + es.length) % 10
    ∧ 0 ≤ (ticks s es).m.retryCount
    ∧ ((s.m.retryCount = 0 ∨ s.stableIterations + es.length ≥ 10) →
        (ticks s es).m.retryCount = 0) := by
  induction es generalizing s with
  | nil =>
    refine ⟨?_, h0, ?_⟩
    · show s.stableIterations = (s.stableIterations + 0) % 10
      omega
    · intro hh
      show s.m.retryCount = 0
      rcases hh with hh | hh
      · exact hh
      · simp only [List.length_nil] at hh
        omega
  | cons e rest ih =>
    simp only [allHealthy, Bool.and_eq_true] at h
    obtain ⟨t1, t2, t3, t4, _⟩ := tick_healthy s e h.1
    have hst' : (tick s e).stableIterations < 10 := by
      rw [t1]; split_ifs <;> omega
    obtain ⟨i1, i2, i3⟩ := ih (tick s e) h.2 hst' (t2 h0)
    have ht : ticks s (e :: rest) = ticks (tick s e) rest := rfl
    rw [ht]
    refine ⟨?_, i2, ?_⟩
    · rw [i1, t1, List.length_cons]
      split_ifs <;> omega
    · intro hh
      apply i3
      rcases hh with hh | hh
      · exact Or.inl (t3 hh)
      · by_cases h10 : s.stableIterations + 1 ≥ 10
        · exact Or.inl (t4 h0 h10)
        · right
          rw [t1]
          simp only [h10, if_false]
          rw [List.length_cons] at hh
          omega

theorem ticks_quiet (es : List TickEnv) (s : RunState) (h : allQuiet s es = true)
    (hst : s.stableIterations + es.length < 10) :
    (ticks s es).m.retryCount = s.m.retryCount := by
  induction es generalizing s with
  | nil => rfl
  | cons e rest ih =>
    simp only [allQuiet, Bool.and_eq_true] at h
    rw [List.length_cons] at hst
    have hq := h.1
    have hh : healthyTick s e = true := by
      unfold quietTick at hq
      simp only [Bool.and_eq_true] at hq
      exact hq.1.1
    obtain ⟨t1, _, _, _, t5⟩ := tick_healthy s e hh
    have hlt : s.stableIterations + 1 < 10 := by omega
    have hst' : (tick s e).stableIterations + rest.length < 10 := by
      rw [t1]; split_ifs <;> omega
    have hi := ih (tick s e) h.2 hst'
    have hr := t5 hq hlt
    have hfold : ticks s (e :: rest) = ticks (tick s e) rest := rfl
    rw [hfold, hi, hr]

/-- C9, as the code has it: in a reachable state of the loop, after 10
consecutive healthy ticks `retryCount` is 0 and the stable counter is back at
the value it had before them (so at 0 when they began at 0, as after a start or
a restart); a tick that needs a restart leaves the stable counter at 0; and
consecutive healthy ticks without log activity that begin with the stable
counter at 0 and are fewer than 10 leave `retryCount` unchanged. -/
theorem stable_counter_reset (s : RunState) (es : List TickEnv) (h : Reachable s) :
    (es.length = 10 → allHealthy s es = true →
        (ticks s es).m.retryCount = 0
        ∧ (ticks s es).stableIterations = s.stableIterations)
    ∧ (∀ e : TickEnv, needRestart s e = true → (tick s e).stableIterations = 0)
    ∧ (s.stableIterations = 0 → es.length < 10 → allQuiet s es = true →
        (ticks s es).m.retryCount = s.m.retryCount) := by
  obtain ⟨_, h0, _, hst, _⟩ := reachable_inv s h
  refine ⟨?_, ?_, ?_⟩
  · intro hlen hall
    obtain ⟨i1, _, i3⟩ := ticks_healthy es s hall hst h0
    refine ⟨i3 (Or.inr (by omega)), ?_⟩
    rw [i1, hlen]
    omega
  · intro e hn
    rw [tick_of_needRestart s e hn]
    exact restart_stable _ _ _
  · intro hz hlen hq
    exact ticks_quiet es s hq (by omega)

/-- Counterexample for C9: the loop restarted with `retryCount = 1`, made three
healthy ticks and one tick whose log probe failed (stable counter 3).  Then 10
consecutive healthy ticks follow, and the stable counter is 3 after them, not
0; and the first 7 of them, without any log activity, bring `retryCount` from
1 to 0. -/
theorem stable_counter_not_zero :
    interruptedState.phase = Phase.looping
    ∧ interruptedState.m.retryCount = 1
    ∧ interruptedState.stableIterations = 3
    ∧ (tenQuietTicks 12).length = 10
    ∧ allHealthy interruptedState (tenQuietTicks 12) = true
    ∧ (ticks interruptedState (tenQuietTicks 12)).stableIterations = 3
    ∧ (ticks interruptedState (tenQuietTicks 12)).stableIterations ≠ 0
    ∧ ((tenQuietTicks 12).take 7).length = 7
    ∧ allQuiet interruptedState ((tenQuietTicks 12).take 7) = true
    ∧ (ticks interruptedState ((tenQuietTicks 12).take 7)).m.retryCount = 0 := by
  decide

/-- Witness for C9 as corrected: 10 healthy ticks right after the restart
bring `retryCount` from 1 to 0 and the stable counter back to 0. -/
theorem stable_counter_reset_witness :
    restartedState.m.retryCount = 1
    ∧ restartedState.stableIterations = 0
    ∧ (ticks restartedState (tenQuietTicks 8)).m.retryCount = 0
    ∧ (ticks restartedState (tenQuietTicks 8)).stableIterations
        = restartedState.stableIterations :=
  ⟨by decide, by decide,
    (stable_counter_reset restartedState (tenQuietTicks 8)
      ⟨"python3 app.py", "/tmp/app.log", 60, 1, goodInit,
        [Event.tick (deadTickSpawnFails 1001), Event.tick (silentTick 7)], rfl⟩).1
      (by decide) (by decide)⟩

/-! ## C5: at most one live child -/

theorem liveInv_of_nil (m : Monitor) (w : World) (h : w.live = []) : LiveInv m w :=
  Or.inl h

theorem liveInv_congr (m m' : Monitor) (w w' : World) (hp : m'.process = m.process)
    (hl : w'.live = w.live) (h : LiveInv m w) : LiveInv m' w' := by
  unfold LiveInv at h ⊢
  rw [hp, hl]
  exact h

theorem liveInv_reap (m : Monitor) (w : World) (pid : Nat) (h : LiveInv m w) :
    LiveInv m (w.reap pid) := by
  unfold LiveInv World.reap at *
  rcases h with h | ⟨p, h1, h2⟩
  · left; simp [h]
  · by_cases hp : p = pid
    · left; simp [h1, hp]
    · right; exact ⟨p, by simp [h1, hp], h2⟩

theorem reap_held_nil (m : Monitor) (w : World) (pid : Nat) (h : LiveInv m w)
    (hp : m.process = some { proc := some pid }) : (w.reap pid).live = [] := by
  unfold LiveInv at h
  unfold World.reap
  rcases h with h | ⟨p, h1, h2⟩
  · simp [h]
  · rw [hp] at h2
    have : pid = p := by simpa using h2
    simp [h1, this]

theorem live_nil_of_not_held (m : Monitor) (w : World) (h : LiveInv m w)
    (hp : ∀ pid, m.process ≠ some { proc := some pid }) : w.live = [] := by
  rcases h with h | ⟨p, _, h2⟩
  · exact h
  · exact absurd h2 (hp p)

theorem killProcessUnsafe_live_nil (m : Monitor) (w : World) (k : KillEnv) (h : LiveInv m w)
    (hk : k.confirms = true) : (killProcessUnsafe m w k).2.live = [] := by
  unfold killProcessUnsafe
  split
  · rename_i pid hp
    have hr := reap_held_nil m w pid h hp
    unfold World.reap at hr
    cases k <;> simp_all [KillEnv.confirms, World.send, World.reap, World.waited] <;>
      assumption
  · rename_i hp
    apply live_nil_of_not_held m w h
    intro pid hpid
    exact hp pid hpid

theorem startProcess_liveInv (m : Monitor) (w : World) (k : KillEnv) (ok : Bool) (now : Int)
    (h : LiveInv m w) (hk : k.confirms = true) :
    LiveInv (startProcess m w k ok now).m (startProcess m w k ok now).w := by
  have hnil : (if m.process.isSome then killProcessUnsafe m w k else (m, w)).2.live = [] := by
    cases hp : m.process with
    | none =>
      simp only [Option.isSome_none, Bool.false_eq_true, if_false]
      apply live_nil_of_not_held m w h
      intro pid hpid
      rw [hp] at hpid
      cases hpid
    | some c =>
      simp only [Option.isSome_some, if_true]
      exact killProcessUnsafe_live_nil m w k h hk
  unfold startProcess
  dsimp only
  generalize (if m.process.isSome then killProcessUnsafe m w k else (m, w)) = mw at *
  cases ok
  · left
    simp [World.spawn, hnil]
  · right
    exact ⟨mw.2.nextPid, by simp [World.spawn, hnil], rfl⟩

theorem isProcessRunning_liveInv (m : Monitor) (w : World) (p : ProbeEnv) (h : LiveInv m w)
    (hp : p.truthful = true) :
    LiveInv (isProcessRunning m w p).m (isProcessRunning m w p).w := by
  unfold isProcessRunning
  split
  · rename_i pid hpid
    split
    · exact h
    · split
      · exact liveInv_congr m _ w _ rfl rfl h
      · rename_i gone
        have hg : gone = true := by simpa [ProbeEnv.truthful] using hp
        have hr := reap_held_nil m w pid h hpid
        left
        simp only [hg, if_true]
        unfold World.reap World.send at *
        exact hr
  · exact h

theorem checkLogs_process (m : Monitor) (stat : Option (Int × Int)) (now : Int) :
    (checkLogs m stat now).m.process = m.process := by
  unfold checkLogs
  split
  · rfl
  · split_ifs <;> rfl

theorem resetRetries_process (m : Monitor) : (resetRetries m).process = m.process := by
  unfold resetRetries
  split_ifs <;> rfl

theorem restart_liveInv (m : Monitor) (w : World) (e : TickEnv) (h : LiveInv m w)
    (hk : e.kill.confirms = true) : LiveInv (restart m w e).m (restart m w e).w := by
  have hs := startProcess_liveInv m w e.kill e.spawnOk e.startNow h hk
  unfold restart
  dsimp only
  generalize startProcess m w e.kill e.spawnOk e.startNow = r at *
  split_ifs
  · exact liveInv_congr m _ w _ rfl rfl h
  · exact liveInv_congr r.m _ r.w _ rfl rfl hs
  · exact hs
  · exact hs

theorem tick_liveInv (s : RunState) (e : TickEnv) (h : LiveInv s.m s.w)
    (hk : e.kill.confirms = true) (hp : e.probe.truthful = true) :
    LiveInv (tick s e).m (tick s e).w := by
  have hi := isProcessRunning_liveInv s.m s.w e.probe h hp
  have hc := checkLogs_process (isProcessRunning s.m s.w e.probe).m e.stat e.now
  unfold tick
  dsimp only
  generalize isProcessRunning s.m s.w e.probe = p at *
  generalize checkLogs p.m e.stat e.now = r at *
  have hr : LiveInv r.m p.w := liveInv_congr p.m _ p.w _ hc rfl hi
  by_cases ha : p.alive = true
  · simp only [ha, if_true]
    split
    · exact hr
    · exact restart_liveInv _ _ _ hr hk
    · by_cases h10 : s.stableIterations + 1 ≥ 10
      · simp only [h10, if_true]
        exact liveInv_congr r.m _ p.w _ (resetRetries_process _) rfl hr
      · simp only [h10, if_false]
        exact hr
  · simp only [ha, Bool.false_eq_true, if_false]
    exact restart_liveInv _ _ _ hi hk

theorem step_liveInv (s : RunState) (ev : Event) (h : LiveInv s.m s.w)
    (hf : ev.faithful = true) : LiveInv (step s ev).m (step s ev).w := by
  unfold step
  split
  · split
    · rename_i k
      have hk : k.confirms = true := by simpa [Event.faithful] using hf
      exact liveInv_of_nil _ _
        (killProcessUnsafe_live_nil (cancel s.m) s.w k (liveInv_congr s.m _ s.w _ rfl rfl h) hk)
    · rename_i k
      have hk : k.confirms = true := by simpa [Event.faithful] using hf
      split_ifs
      · exact liveInv_of_nil _ _ (killProcessUnsafe_live_nil s.m s.w k h hk)
      · exact h
    · rename_i e
      have hk : e.kill.confirms = true ∧ e.probe.truthful = true := by
        simpa [Event.faithful] using hf
      exact tick_liveInv s e h hk.1 hk.2
    · rename_i pid
      exact liveInv_reap s.m s.w pid h
  · exact h

theorem foldl_step_liveInv (evs : List Event) (s : RunState) (h : LiveInv s.m s.w)
    (hf : ∀ ev ∈ evs, ev.faithful = true) :
    LiveInv (evs.foldl step s).m (evs.foldl step s).w := by
  induction evs generalizing s with
  | nil => exact h
  | cons ev rest ih =>
    exact ih _ (step_liveInv s ev h (hf ev (List.mem_cons_self _ _)))
      (fun ev' h' => hf ev' (List.mem_cons_of_mem _ h'))

theorem runInit_liveInv (command logFile : String) (timeout interval : Int) (i : InitEnv) :
    LiveInv (runInit (NewMonitor command logFile timeout interval) World.empty i).m
      (runInit (NewMonitor command logFile timeout interval) World.empty i).w := by
  unfold runInit startProcess NewMonitor World.empty LiveInv World.spawn
  cases i.validateOk <;> cases i.spawnOk <;> simp
  split_ifs <;> simp

/-- C5, as the code has it: `startProcess` runs the termination sequence on a
held handle before it spawns (the world it leaves is the one left by
`killProcessUnsafe`, with the spawn added, and SIGTERM was sent to a held
child).  In every execution of `Run` from a fresh Monitor in which each
termination sequence ends with the child gone and the liveness probe fails
only for a child that has ended, at most one child spawned by the Monitor is
live, and a live child is the one whose handle the Monitor holds. -/
theorem one_live_child (command logFile : String) (timeout interval : Int) (i : InitEnv)
    (evs : List Event) (hf : ∀ ev ∈ evs, ev.faithful = true) :
    (Run (NewMonitor command logFile timeout interval) i evs).w.live.length ≤ 1
    ∧ (∀ p ∈ (Run (NewMonitor command logFile timeout interval) i evs).w.live,
        (Run (NewMonitor command logFile timeout interval) i evs).m.process
          = some { proc := some p })
    ∧ (∀ (m : Monitor) (w : World) (k : KillEnv) (ok : Bool) (now : Int),
        m.process ≠ none →
          (startProcess m w k ok now).w = (killProcessUnsafe m w k).2.spawn ok)
    ∧ (∀ (m : Monitor) (w : World) (k : KillEnv) (ok : Bool) (now : Int) (pid : Nat),
        m.process = some { proc := some pid } →
          (Signal.sigterm, pid) ∈ (startProcess m w k ok now).w.signals) := by
  have h := foldl_step_liveInv evs _ (runInit_liveInv command logFile timeout interval i) hf
  unfold Run
  generalize evs.foldl step (runInit (NewMonitor command logFile timeout interval)
    World.empty i) = S at *
  refine ⟨?_, ?_, ?_, ?_⟩
  · rcases h with h | ⟨p, h1, _⟩
    · rw [h]; simp
    · rw [h1]; simp
  · intro p hp
    rcases h with h | ⟨q, h1, h2⟩
    · rw [h] at hp; cases hp
    · rw [h1] at hp
      have : p = q := by simpa using hp
      rw [this]; exact h2
  · intro m w k ok now hne
    unfold startProcess
    cases hp : m.process with
    | none => exact absurd hp hne
    | some c => cases ok <;> simp
  · intro m w k ok now pid hp
    unfold startProcess killProcessUnsafe
    rcases k with g | g | _ | g
    · cases ok <;> cases g <;> simp [hp, World.spawn, World.send, World.reap, World.waited]
    · cases ok <;> cases g <;> simp [hp, World.spawn, World.send, World.reap, World.waited]
    · cases ok <;> simp [hp, World.spawn, World.send, World.reap, World.waited]
    · cases ok <;> cases g <;> simp [hp, World.spawn, World.send, World.reap, World.waited]

/-- Counterexample for C5: timeout 3 s, interval 1 s, a silent log.  At the
fourth tick the health check times out; the termination sequence sends
SIGTERM, then SIGKILL, and gives up after the 2-second wait while child 0 is
still there; the handle is cleared and child 1 is spawned: two children
spawned by the Monitor are live. -/
theorem two_live_children :
    (Run silentMonitor goodInit (silentTicks 3)).w.live = [0]
    ∧ killNotice (Run silentMonitor goodInit (silentTicks 3)).m stubbornTick.kill
        = KillNotice.forcedMayRemain
    ∧ (Run silentMonitor goodInit (silentTicks 3 ++ [Event.tick stubbornTick])).w.live = [1, 0]
    ∧ (Run silentMonitor goodInit
        (silentTicks 3 ++ [Event.tick stubbornTick])).w.live.length = 2
    ∧ (Run silentMonitor goodInit (silentTicks 3 ++ [Event.tick stubbornTick])).m.process
        = some { proc := some 1 } := by
  decide

/-- Witness for C5 as corrected: the silent-log execution, in which every
termination ends with the child exiting in time. -/
theorem one_live_child_witness :
    (∀ ev ∈ silentTicks 16, ev.faithful = true)
    ∧ (Run (NewMonitor "sleep 1000" "/tmp/app.log" 3 1) goodInit
        (silentTicks 16)).w.live.length ≤ 1 :=
  ⟨by decide,
    (one_live_child "sleep 1000" "/tmp/app.log" 3 1 goodInit (silentTicks 16) (by decide)).1⟩

/-! ## C11: what `startProcess` changes -/

/-- C11: for every Monitor state, a `startProcess` whose spawn succeeds returns
no error, sets `lastModTime` to the current time and leaves `retryCount`,
`lastLogSize` and `lastFailure` as they were; one whose spawn fails returns an
error, increments `retryCount` by exactly 1, sets `lastFailure` to the current
time and leaves `lastModTime` (and `lastLogSize`) as they were. -/
theorem startProcess_frame (m : Monitor) (w : World) (k : KillEnv) (now : Int) :
    ((startProcess m w k true now).err = false
      ∧ (startProcess m w k true now).m.lastModTime = now
      ∧ (startProcess m w k true now).m.retryCount = m.retryCount
      ∧ (startProcess m w k true now).m.lastLogSize = m.lastLogSize
      ∧ (startProcess m w k true now).m.lastFailure = m.lastFailure)
    ∧ ((startProcess m w k false now).err = true
      ∧ (startProcess m w k false now).m.retryCount = m.retryCount + 1
      ∧ (startProcess m w k false now).m.lastFailure = now
      ∧ (startProcess m w k false now).m.lastModTime = m.lastModTime
      ∧ (startProcess m w k false now).m.lastLogSize = m.lastLogSize) := by
  have hf : (killProcessUnsafe m w k).1.lastFailure = m.lastFailure := by
    rcases killProcessUnsafe_monitor m w k with h | h <;> rw [h]
  have hr := killProcessUnsafe_retryCount m w k
  have hb := killProcessUnsafe_baseline m w k
  unfold startProcess
  cases m.process <;> simp [hf, hr, hb]

/-! ## C12, C13: the termination sequence and the handle -/

/-- C12 at the failing input: the running state holds child 0; when
`Signal(SIGTERM)` returns an error, `killProcessUnsafe` (and `killProcess`)
returns with the handle still in place, whether or not the child has ended,
and without calling `Wait`; in the four other outcomes the handle is cleared. -/
theorem sigterm_failure_keeps_handle :
    runningState.m.process = some { proc := some 0 }
    ∧ (killProcessUnsafe runningState.m runningState.w (KillEnv.sigtermError false)).1.process
        = some { proc := some 0 }
    ∧ (killProcess runningState.m runningState.w (KillEnv.sigtermError true)).1.process
        = some { proc := some 0 }
    ∧ (killProcess runningState.m runningState.w (KillEnv.sigtermError true)).1.process ≠ none
    ∧ (killProcess runningState.m runningState.w (KillEnv.sigtermError true)).2.waits = 0
    ∧ killNotice runningState.m (KillEnv.sigtermError true) = KillNotice.sigtermFailed
    ∧ (killProcess runningState.m runningState.w (KillEnv.exited false)).1.process = none
    ∧ (killProcess runningState.m runningState.w (KillEnv.exited true)).1.process = none
    ∧ (killProcess runningState.m runningState.w KillEnv.forcedReaped).1.process = none
    ∧ (killProcess runningState.m runningState.w (KillEnv.forcedUnconfirmed false)).1.process
        = none := by
  decide

/-- C13: on a Monitor whose handle is nil, or is a command without an OS
process, `killProcess` (and `killProcessUnsafe`) returns the Monitor and the
world unchanged, whatever the system would answer: no signal is sent, nothing
is waited for and no field changes. -/
theorem killProcess_terminated_noop (m : Monitor) (w : World) (k : KillEnv)
    (h : m.process = none ∨ m.process = some { proc := none }) :
    killProcess m w k = (m, w) ∧ killProcessUnsafe m w k = (m, w)
    ∧ (killProcess m w k).2.signals = w.signals ∧ (killProcess m w k).2.waits = w.waits := by
  have hk : killProcessUnsafe m w k = (m, w) := by
    unfold killProcessUnsafe
    rcases h with h | h <;> rw [h]
  unfold killProcess
  rw [hk]
  exact ⟨rfl, rfl, rfl, rfl⟩

/-- Witness for C13: terminating the running state twice; the second call
finds the handle cleared and changes nothing. -/
theorem killProcess_terminated_noop_witness :
    (killProcess runningState.m runningState.w (KillEnv.exited false)).1.process = none
    ∧ killProcess (killProcess runningState.m runningState.w (KillEnv.exited false)).1
        (killProcess runningState.m runningState.w (KillEnv.exited false)).2 KillEnv.forcedReaped
      = ((killProcess runningState.m runningState.w (KillEnv.exited false)).1,
          (killProcess runningState.m runningState.w (KillEnv.exited false)).2) :=
  ⟨by decide,
    (killProcess_terminated_noop
      (killProcess runningState.m runningState.w (KillEnv.exited false)).1
      (killProcess runningState.m runningState.w (KillEnv.exited false)).2 KillEnv.forcedReaped
      (Or.inl (by decide))).1⟩

/-! ## C16: the first health check after the start -/

/-- C16 at the failing input: after the first start at 1000 s the Monitor
already has `lastModTime = 1000 s` and `lastLogSize = 0`.  Its first health
check, at 1001 s, of a log file of 100 bytes last written at 900 s does not
take the first-observation path: it reports new logs, sets `lastModTime` to the
clock reading 1001 s instead of the probed 900 s.  And with timeout 1 s and
interval 5 s the first health check of an empty log, at 1005 s, reports
unhealthy. -/
theorem first_check_not_first_observation :
    (Run patientMonitor goodInit []).phase = Phase.looping
    ∧ (Run patientMonitor goodInit []).m.lastModTime = 1000 * Second
    ∧ (Run patientMonitor goodInit []).m.lastLogSize = 0
    ∧ (checkLogs (Run patientMonitor goodInit []).m (staleLogTick 1).stat
        (staleLogTick 1).now).notice = LogNotice.grown
    ∧ (checkLogs (Run patientMonitor goodInit []).m (staleLogTick 1).stat
        (staleLogTick 1).now).notice ≠ LogNotice.initial
    ∧ (Run patientMonitor goodInit [Event.tick (staleLogTick 1)]).m.lastModTime = 1001 * Second
    ∧ (Run patientMonitor goodInit [Event.tick (staleLogTick 1)]).m.lastModTime ≠ 900 * Second
    ∧ (Run patientMonitor goodInit [Event.tick (staleLogTick 1)]).m.lastLogSize = 100
    ∧ (checkLogs (Run hastyMonitor goodInit []).m (silentTick 5).stat (silentTick 5).now).ok
        = some false
    ∧ (Run hastyMonitor goodInit [Event.tick (silentTick 5)]).w.attempts = 2 := by
  decide

/-- After any start of `Run` that reaches the loop with a clock reading other
than the zero time, the baseline is already set: no probe result makes the
first health check take the first-observation path. -/
theorem first_check_has_baseline (command logFile : String) (timeout interval : Int)
    (i : InitEnv) (stat : Option (Int × Int)) (now : Int) (hstart : i.startNow ≠ 0)
    (hl : (Run (NewMonitor command logFile timeout interval) i []).phase = Phase.looping) :
    (checkLogs (Run (NewMonitor command logFile timeout interval) i []).m stat now).notice
      ≠ LogNotice.initial := by
  have hb : (Run (NewMonitor command logFile timeout interval) i []).m.lastModTime
      = i.startNow := by
    have hs := (startProcess_baseline (NewMonitor command logFile timeout interval) World.empty
      i.kill i.spawnOk i.startNow).2
    have he := startProcess_err (NewMonitor command logFile timeout interval) World.empty
      i.kill i.spawnOk i.startNow
    unfold Run runInit at hl ⊢
    simp only [List.foldl_nil] at hl ⊢
    generalize startProcess (NewMonitor command logFile timeout interval) World.empty
      i.kill i.spawnOk i.startNow = r at *
    cases hok : i.spawnOk
    · rw [hok] at he
      cases hv : i.validateOk <;> simp [hv, he] at hl
    · rw [hok] at hs
      simp only [if_true] at hs
      cases hv : i.validateOk
      · simp [hv] at hl
      · simp only [hv, Bool.not_true, Bool.false_eq_true, if_false]
        split_ifs <;> exact hs
  generalize (Run (NewMonitor command logFile timeout interval) i []).m = m at *
  have hne : m.lastModTime ≠ 0 := by rw [hb]; exact hstart
  rcases stat with _ | ⟨a, b⟩
  · simp [checkLogs]
  · simp only [checkLogs, hne, if_false]
    split_ifs <;> simp

/-! ## C19: the branch for exceeded retries is dead -/

theorem restart_phase (m : Monitor) (w : World) (e : TickEnv)
    (hc : m.retryCount < m.maxRetries) :
    (restart m w e).phase = Phase.looping
    ∨ ((restart m w e).phase = Phase.retriesExhausted ∧ e.spawnOk = false
        ∧ (restart m w e).m.retryCount = m.retryCount + 1
        ∧ (restart m w e).m.maxRetries = m.maxRetries
        ∧ m.maxRetries ≤ m.retryCount + 1) := by
  cases hs : e.spawnOk
  · obtain ⟨f1, f2, _, _, f5⟩ := restart_spawn_fails m w e hc hs
    by_cases hlt : m.retryCount + 1 < m.maxRetries
    · exact Or.inl (f5 hlt).2
    · right
      refine ⟨?_, rfl, f1, f2, by omega⟩
      have hrc := startProcess_retryCount m w e.kill e.spawnOk e.startNow
      have hmx := startProcess_maxRetries m w e.kill e.spawnOk e.startNow
      have her := startProcess_err m w e.kill e.spawnOk e.startNow
      have hcr : canRetry m = true := by unfold canRetry; exact decide_eq_true hc
      unfold restart
      dsimp only
      generalize startProcess m w e.kill e.spawnOk e.startNow = r at *
      rw [hs] at hrc her
      simp only [Bool.false_eq_true, if_false] at hrc
      have hcr2 : canRetry r.m = false := by
        unfold canRetry; rw [hrc, hmx]; exact decide_eq_false hlt
      simp [hcr, her, hcr2]
  · exact Or.inl (restart_spawn_ok m w e hc hs).1

theorem tick_phase (s : RunState) (e : TickEnv) (h : Inv s) (hl : s.phase = Phase.looping) :
    (tick s e).phase = Phase.looping
    ∨ ((tick s e).phase = Phase.retriesExhausted ∧ needRestart s e = true ∧ e.spawnOk = false
        ∧ (tick s e).m.retryCount = (tick s e).m.maxRetries) := by
  obtain ⟨hmax, h0, h3, hst, hloop⟩ := h
  obtain ⟨hlt, _⟩ := hloop hl
  have pr := isProcessRunning_retryCount s.m s.w e.probe
  have pm := isProcessRunning_maxRetries s.m s.w e.probe
  by_cases hn : needRestart s e = true
  · rw [tick_of_needRestart s e hn]
    rcases restart_phase (isProcessRunning s.m s.w e.probe).m (isProcessRunning s.m s.w e.probe).w
      e (by rw [pr, pm, hmax]; exact hlt) with g | ⟨g1, g2, g3, g4, g5⟩
    · exact Or.inl g
    · right
      simp only [pr, pm] at g3 g4 g5
      exact ⟨g1, hn, g2, by rw [g3, g4]; omega⟩
  · left
    unfold needRestart at hn
    unfold tick
    dsimp only
    generalize isProcessRunning s.m s.w e.probe = p at *
    generalize checkLogs p.m e.stat e.now = r at *
    simp only [Bool.or_eq_true, Bool.not_eq_true', beq_iff_eq, not_or, Bool.not_eq_false] at hn
    obtain ⟨ha, hok⟩ := hn
    simp only [ha, if_true]
    split
    · exact hl
    · rename_i hf
      exact absurd hf hok
    · split_ifs <;> exact hl

theorem step_not_exceeded (s : RunState) (ev : Event) (h : Inv s)
    (hne : s.phase ≠ Phase.retriesExceeded)
    (hex : s.phase = Phase.retriesExhausted → s.m.retryCount = s.m.maxRetries) :
    (step s ev).phase ≠ Phase.retriesExceeded
    ∧ ((step s ev).phase = Phase.retriesExhausted →
        (step s ev).m.retryCount = (step s ev).m.maxRetries) := by
  by_cases hl : s.phase = Phase.looping
  · cases ev with
    | signal k => unfold step; simp [hl]
    | ctxDone k =>
      unfold step
      simp only [hl]
      split_ifs
      · simp
      · simp [hl]
    | tick e =>
      rw [step_tick s e hl]
      rcases tick_phase s e h hl with g | ⟨g1, _, _, g4⟩
      · rw [g]; simp
      · rw [g1]; exact ⟨by simp, fun _ => g4⟩
    | childExit pid =>
      unfold step
      simp [hl]
  · have hs : step s ev = s := by
      unfold step
      split
      · rename_i h'
        exact absurd h' hl
      · rfl
    rw [hs]
    exact ⟨hne, hex⟩

theorem foldl_step_not_exceeded (evs : List Event) (s : RunState) (h : Inv s)
    (hne : s.phase ≠ Phase.retriesExceeded)
    (hex : s.phase = Phase.retriesExhausted → s.m.retryCount = s.m.maxRetries) :
    (evs.foldl step s).phase ≠ Phase.retriesExceeded
    ∧ ((evs.foldl step s).phase = Phase.retriesExhausted →
        (evs.foldl step s).m.retryCount = (evs.foldl step s).m.maxRetries) := by
  induction evs generalizing s with
  | nil => exact ⟨hne, hex⟩
  | cons ev rest ih =>
    obtain ⟨g1, g2⟩ := step_not_exceeded s ev h hne hex
    exact ih _ (step_inv s ev h) g1 g2

theorem runInit_not_failed (m : Monitor) (w : World) (i : InitEnv) :
    (runInit m w i).phase.isFailed = false := by
  unfold runInit
  dsimp only
  split_ifs <;> rfl

/-- C19: in every reachable state in which `Run` is in its loop, that is at the
start of every tick, `retryCount < maxRetries` (`retryCount ≤ 2`); no execution
ever takes the branch of the restart decision in which `canRetry` fails before
`startProcess` is called; and a Monitor reaches Failed only through a tick
that needs a restart, whose spawn fails and brings `retryCount` up to
`maxRetries`. -/
theorem retries_exceeded_unreachable (s : RunState) (h : Reachable s) :
    (s.phase = Phase.looping → s.m.retryCount < s.m.maxRetries ∧ s.m.retryCount ≤ 2)
    ∧ s.phase ≠ Phase.retriesExceeded
    ∧ (s.phase.isFailed = true →
        s.phase = Phase.retriesExhausted ∧ s.m.retryCount = s.m.maxRetries)
    ∧ (∀ ev : Event, s.phase = Phase.looping → (step s ev).phase.isFailed = true →
        ∃ e : TickEnv, ev = Event.tick e ∧ needRestart s e = true ∧ e.spawnOk = false
          ∧ (step s ev).phase = Phase.retriesExhausted
          ∧ (step s ev).m.retryCount = (step s ev).m.maxRetries) := by
  have hinv := reachable_inv s h
  obtain ⟨command, logFile, timeout, interval, i, evs, rfl⟩ := h
  have hi := runInit_not_failed (NewMonitor command logFile timeout interval) World.empty i
  obtain ⟨g1, g2⟩ := foldl_step_not_exceeded evs _
    (runInit_inv command logFile timeout interval i)
    (by intro hp; rw [hp] at hi; cases hi) (by intro hp; rw [hp] at hi; cases hi)
  unfold Run at hinv ⊢
  generalize evs.foldl step (runInit (NewMonitor command logFile timeout interval)
    World.empty i) = S at *
  obtain ⟨hmax, h0, h3, hst, hloop⟩ := hinv
  refine ⟨?_, g1, ?_, ?_⟩
  · intro hl
    obtain ⟨hlt, _⟩ := hloop hl
    exact ⟨by rw [hmax]; exact hlt, by omega⟩
  · intro hf
    have hp : S.phase = Phase.retriesExhausted := by
      cases hph : S.phase <;> rw [hph] at hf <;> first | rfl | exact absurd hph g1 | cases hf
    exact ⟨hp, g2 hp⟩
  · intro ev hl hf
    cases ev with
    | signal k => unfold step at hf; simp [hl, Phase.isFailed] at hf
    | ctxDone k =>
      unfold step at hf
      simp only [hl] at hf
      split_ifs at hf
      · simp [Phase.isFailed] at hf
      · simp [hl, Phase.isFailed] at hf
    | tick e =>
      rw [step_tick S e hl] at hf ⊢
      rcases tick_phase S e ⟨hmax, h0, h3, hst, hloop⟩ hl with g | ⟨k1, k2, k3, k4⟩
      · rw [g] at hf; cases hf
      · exact ⟨e, rfl, k2, k3, k1, k4⟩
    | childExit pid => unfold step at hf; simp [hl, Phase.isFailed] at hf

/-- Witness for C19: three ticks in a row whose restart fails to spawn; the
Monitor is Failed, through the branch taken after the failed spawn, with
`retryCount = maxRetries = 3`. -/
theorem retries_exceeded_unreachable_witness :
    (Run silentMonitor goodInit
        [Event.tick (deadTickSpawnFails 1001), Event.tick (deadTickSpawnFails 1007),
          Event.tick (deadTickSpawnFails 1018)]).phase ≠ Phase.retriesExceeded
    ∧ ((Run silentMonitor goodInit
        [Event.tick (deadTickSpawnFails 1001), Event.tick (deadTickSpawnFails 1007),
          Event.tick (deadTickSpawnFails 1018)]).phase = Phase.retriesExhausted
      ∧ (Run silentMonitor goodInit
        [Event.tick (deadTickSpawnFails 1001), Event.tick (deadTickSpawnFails 1007),
          Event.tick (deadTickSpawnFails 1018)]).m.retryCount
        = (Run silentMonitor goodInit
        [Event.tick (deadTickSpawnFails 1001), Event.tick (deadTickSpawnFails 1007),
          Event.tick (deadTickSpawnFails 1018)]).m.maxRetries) :=
  ⟨(retries_exceeded_unreachable _ ⟨"sleep 1000", "/tmp/app.log", 3, 1, goodInit,
      [Event.tick (deadTickSpawnFails 1001), Event.tick (deadTickSpawnFails 1007),
        Event.tick (deadTickSpawnFails 1018)], rfl⟩).2.1,
    (retries_exceeded_unreachable _ ⟨"sleep 1000", "/tmp/app.log", 3, 1, goodInit,
      [Event.tick (deadTickSpawnFails 1001), Event.tick (deadTickSpawnFails 1007),
        Event.tick (deadTickSpawnFails 1018)], rfl⟩).2.2.1 (by decide)⟩

/-! ## The phases that end the program -/

theorem restart_programEnd (m : Monitor) (w : World) (e : TickEnv) :
    (restart m w e).phase.programEnd = none := by
  unfold restart
  dsimp only
  split_ifs <;> rfl

theorem tick_programEnd (s : RunState) (e : TickEnv) (hl : s.phase = Phase.looping) :
    (tick s e).phase.programEnd = none := by
  have hp : s.phase.programEnd = none := by rw [hl]; rfl
  unfold tick
  dsimp only
  by_cases ha : (isProcessRunning s.m s.w e.probe).alive = true
  · simp only [ha, if_true]
    split
    · exact hp
    · exact restart_programEnd _ _ _
    · by_cases h10 : s.stableIterations + 1 ≥ 10
      · simp only [h10, if_true]
        exact hp
      · simp only [h10, if_false]
        exact hp
  · simp only [ha, Bool.false_eq_true, if_false]
    exact restart_programEnd _ _ _

theorem step_programEnd (s : RunState) (ev : Event) :
    (step s ev).phase.programEnd = s.phase.programEnd := by
  by_cases hl : s.phase = Phase.looping
  · cases ev with
    | signal k => unfold step; simp [hl, Phase.programEnd]
    | ctxDone k =>
      unfold step
      simp only [hl]
      split_ifs
      · rfl
      · simp [hl]
    | tick e => rw [step_tick s e hl, tick_programEnd s e hl, hl]; rfl
    | childExit pid => unfold step; simp [hl]
  · have hs : step s ev = s := by
      unfold step
      split
      · rename_i h'
        exact absurd h' hl
      · rfl
    rw [hs]

theorem foldl_step_programEnd (evs : List Event) (s : RunState) :
    (evs.foldl step s).phase.programEnd = s.phase.programEnd := by
  induction evs generalizing s with
  | nil => rfl
  | cons ev rest ih => rw [List.foldl_cons, ih, step_programEnd]

theorem startProcess_interval (m : Monitor) (w : World) (k : KillEnv) (ok : Bool) (now : Int) :
    (startProcess m w k ok now).m.interval = m.interval := by
  have hk : (killProcessUnsafe m w k).1.interval = m.interval := by
    rcases killProcessUnsafe_monitor m w k with h | h <;> rw [h]
  unfold startProcess
  cases ok <;> cases m.process <;> simp [hk]

theorem runInit_no_panic (m : Monitor) (w : World) (i : InitEnv) (h : 0 < m.interval) :
    (runInit m w i).phase ≠ Phase.tickerPanic := by
  have hi := startProcess_interval m w i.kill i.spawnOk i.startNow
  unfold runInit
  dsimp only
  generalize startProcess m w i.kill i.spawnOk i.startNow = r at *
  have hn : ¬ r.m.interval ≤ 0 := by omega
  split_ifs <;> simp

theorem run_no_panic (m : Monitor) (i : InitEnv) (evs : List Event) (h : 0 < m.interval) :
    (Run m i evs).phase ≠ Phase.tickerPanic := by
  have h1 := runInit_no_panic m World.empty i h
  have h2 := foldl_step_programEnd evs (runInit m World.empty i)
  unfold Run
  generalize evs.foldl step (runInit m World.empty i) = S at *
  intro hp
  rw [hp] at h2
  cases hq : (runInit m World.empty i).phase <;> rw [hq] at h2 <;>
    first | exact absurd hq h1 | cases h2

/-! ## C17, C18: the interval and the timeout handed to the Monitor -/

theorem parseOptional_pos (arg : Option (Option Int)) (dflt : Int) (bad : MainNotice)
    (h : 1 ≤ dflt) : 1 ≤ (parseOptional arg dflt bad).1 := by
  unfold parseOptional
  rcases arg with _ | _ | t
  · exact h
  · exact h
  · dsimp only
    split_ifs with ht
    · show 1 ≤ t
      omega
    · exact h

theorem parseOptional_notices (arg : Option (Option Int)) (dflt : Int) (a b : MainNotice)
    (hab : a ≠ b) : a ∉ (parseOptional arg dflt b).2 := by
  unfold parseOptional
  rcases arg with _ | _ | t
  · simp
  · simp [hab]
  · dsimp only
    split_ifs <;> simp [hab]

/-- C17, as the code has it: in single-process mode the program prints the
warning about the timeout, before it builds and runs the Monitor, exactly when
the timeout it will use is strictly below the interval it will use (none when
they are equal); both values are at least 1; and for an interval of at most
9223372036 seconds the Monitor gets an interval of at least one second, so that
creating the ticker does not panic in any execution. -/
theorem single_mode_warns_below (opts : List (Option Int)) (command logFile : String) :
    (MainNotice.timeoutBelowInterval ∈ (mainSetup opts).notices
        ↔ (mainSetup opts).timeout < (mainSetup opts).interval)
    ∧ 1 ≤ (mainSetup opts).timeout
    ∧ 1 ≤ (mainSetup opts).interval
    ∧ ((mainSetup opts).interval ≤ 9223372036 →
        Second ≤ (mainMonitor command logFile opts).interval
        ∧ ∀ (i : InitEnv) (evs : List Event),
            (Run (mainMonitor command logFile opts) i evs).phase ≠ Phase.tickerPanic) := by
  have ht := parseOptional_pos opts[0]? 60 MainNotice.invalidTimeout (by decide)
  have hi := parseOptional_pos opts[1]? 5 MainNotice.invalidInterval (by decide)
  have nt := parseOptional_notices opts[0]? 60 MainNotice.timeoutBelowInterval
    MainNotice.invalidTimeout (by decide)
  have ni := parseOptional_notices opts[1]? 5 MainNotice.timeoutBelowInterval
    MainNotice.invalidInterval (by decide)
  have hsetup : mainSetup opts =
      { timeout := (parseOptional opts[0]? 60 MainNotice.invalidTimeout).1,
        interval := (parseOptional opts[1]? 5 MainNotice.invalidInterval).1,
        notices := (parseOptional opts[0]? 60 MainNotice.invalidTimeout).2
          ++ (parseOptional opts[1]? 5 MainNotice.invalidInterval).2
          ++ (if (parseOptional opts[0]? 60 MainNotice.invalidTimeout).1
                < (parseOptional opts[1]? 5 MainNotice.invalidInterval).1
              then [MainNotice.timeoutBelowInterval] else []) } := by
    unfold mainSetup
    dsimp only
    rw [if_neg (by omega)]
  have hint : (mainMonitor command logFile opts).interval
      = wrap64 ((mainSetup opts).interval * Second) := rfl
  rw [hint, hsetup]
  dsimp only
  generalize parseOptional opts[0]? 60 MainNotice.invalidTimeout = t at *
  generalize parseOptional opts[1]? 5 MainNotice.invalidInterval = iv at *
  refine ⟨?_, ht, hi, ?_⟩
  · constructor
    · intro hmem
      simp only [List.mem_append] at hmem
      rcases hmem with (h | h) | h
      · exact absurd h nt
      · exact absurd h ni
      · by_contra hlt
        simp [hlt] at h
    · intro hlt
      simp [hlt]
  · intro hle
    have hw : wrap64 (iv.1 * Second) = iv.1 * Second :=
      wrap64_of_range _ (by unfold Second; omega) (by unfold Second; omega)
    have hs : Second ≤ wrap64 (iv.1 * Second) := by
      rw [hw]; unfold Second; omega
    refine ⟨hs, ?_⟩
    intro i evs
    apply run_no_panic
    show 0 < (mainMonitor command logFile opts).interval
    rw [hint, hsetup]
    dsimp only
    unfold Second at hs ⊢
    omega

/-- Counterexample for C17: in single-process mode with timeout 5 and interval
5 no line is printed and the Monitor is built and runs; in multi-process mode
an entry without timeout and interval (both 0) makes the program panic. -/
theorem equal_timeout_no_warning :
    (mainSetup [some 5, some 5]).timeout = 5
    ∧ (mainSetup [some 5, some 5]).interval = 5
    ∧ (mainSetup [some 5, some 5]).notices = []
    ∧ (Run (mainMonitor "python3 app.py" "/tmp/app.log" [some 5, some 5]) goodInit []).phase
        = Phase.looping
    ∧ bareEntry.Timeout ≤ bareEntry.Interval
    ∧ (runFromConfig (some [(bareEntry, goodInit)])).ended = some ProgramEnd.panicked := by
  decide

/-- Witness for C17 as corrected: timeout 3 and interval 5 are warned about. -/
theorem single_mode_warns_below_witness :
    (mainSetup [some 3, some 5]).notices = [MainNotice.timeoutBelowInterval]
    ∧ MainNotice.timeoutBelowInterval ∈ (mainSetup [some 3, some 5]).notices
    ∧ Second ≤ (mainMonitor "python3 app.py" "/tmp/app.log" [some 3, some 5]).interval :=
  ⟨by decide,
    (single_mode_warns_below [some 3, some 5] "python3 app.py" "/tmp/app.log").1.mpr
      (by decide),
    ((single_mode_warns_below [some 3, some 5] "python3 app.py" "/tmp/app.log").2.2.2
      (by decide)).1⟩

/-- C18 at the failing input: in multi-process mode an entry whose interval is
absent or 0, or negative, reaches `NewMonitor` as it is; the Monitor gets an
interval of 0 (or below), `time.NewTicker` panics and the program ends, a
sibling Monitor with a valid entry included.  Single-process mode replaces the
same values by the default of 5 seconds. -/
theorem config_interval_not_validated :
    (NewMonitor noIntervalEntry.Command noIntervalEntry.LogFile noIntervalEntry.Timeout
        noIntervalEntry.Interval).interval = 0
    ∧ (runFromConfig (some [(noIntervalEntry, goodInit)])).monitors.map (fun s => s.phase)
        = [Phase.tickerPanic]
    ∧ (runFromConfig (some [(noIntervalEntry, goodInit)])).ended = some ProgramEnd.panicked
    ∧ (NewMonitor negativeIntervalEntry.Command negativeIntervalEntry.LogFile
        negativeIntervalEntry.Timeout negativeIntervalEntry.Interval).interval = -5 * Second
    ∧ (runFromConfig (some [(negativeIntervalEntry, goodInit)])).ended
        = some ProgramEnd.panicked
    ∧ (runFromConfig (some [(webEntry, goodInit), (noIntervalEntry, goodInit)])).monitors.map
        (fun s => s.phase) = [Phase.looping, Phase.tickerPanic]
    ∧ (runFromConfig (some [(webEntry, goodInit), (noIntervalEntry, goodInit)])).ended
        = some ProgramEnd.panicked
    ∧ (mainMonitor "python3 worker.py" "/tmp/worker.log" [some 60, some 0]).interval
        = 5 * Second
    ∧ (mainMonitor "python3 worker.py" "/tmp/worker.log" [some 60, some (-5)]).interval
        = 5 * Second
    ∧ (mainMonitor "python3 worker.py" "/tmp/worker.log" [some 60, none]).interval
        = 5 * Second := by
  decide

/-! ## C14, C15: one Monitor among several -/

/-- C15 at the failing input: multi-process mode with two entries, both
children running.  When the goroutine of `runFromConfig` receives the
interrupt or terminate signal the program ends at once (`os.Exit(0)`): no
Monitor has been cancelled, no signal has been sent to a child, and each
Monitor still holds its live child.  The loop of `Run`, which single-process
mode relies on, cancels and terminates on the same signal. -/
theorem shutdown_exits_with_live_children :
    (runFromConfig (some [(webEntry, goodInit), (webEntry, goodInit)])).ended = none
    ∧ (groupStep (runFromConfig (some [(webEntry, goodInit), (webEntry, goodInit)]))
        GroupEvent.shutdown).ended = some ProgramEnd.exitZero
    ∧ (groupStep (runFromConfig (some [(webEntry, goodInit), (webEntry, goodInit)]))
        GroupEvent.shutdown).monitors.map (fun s => s.phase) = [Phase.looping, Phase.looping]
    ∧ (groupStep (runFromConfig (some [(webEntry, goodInit), (webEntry, goodInit)]))
        GroupEvent.shutdown).monitors.map (fun s => s.m.cancelled) = [false, false]
    ∧ (groupStep (runFromConfig (some [(webEntry, goodInit), (webEntry, goodInit)]))
        GroupEvent.shutdown).monitors.map (fun s => s.m.process)
        = [some { proc := some 0 }, some { proc := some 0 }]
    ∧ (groupStep (runFromConfig (some [(webEntry, goodInit), (webEntry, goodInit)]))
        GroupEvent.shutdown).monitors.map (fun s => s.w.live) = [[0], [0]]
    ∧ (groupStep (runFromConfig (some [(webEntry, goodInit), (webEntry, goodInit)]))
        GroupEvent.shutdown).monitors.map (fun s => s.w.signals) = [[], []]
    ∧ (step runningState (Event.signal (KillEnv.exited false))).m.cancelled = true
    ∧ (step runningState (Event.signal (KillEnv.exited false))).m.process = none
    ∧ (step runningState (Event.signal (KillEnv.exited false))).w.live = []
    ∧ (step runningState (Event.signal (KillEnv.exited false))).w.signals
        = [(Signal.sigterm, 0)] := by
  decide

/-! ## C20: the duplicate key of `removeDuplicates` -/

theorem removeDuplicatesStep_cases (acc : List String × List ProcessCandidate)
    (c : ProcessCandidate) :
    (removeDuplicatesStep acc c = acc ∧ (c.valid = false ∨ c.key ∈ acc.1))
    ∨ (removeDuplicatesStep acc c = (c.key :: acc.1, acc.2 ++ [c]) ∧ c.valid = true
        ∧ c.key ∉ acc.1) := by
  unfold removeDuplicatesStep ProcessCandidate.valid
  by_cases hv : (c.Name == "" || c.Name == "unknown" || c.Command == ""
      || c.Command == c.LogFile) = true
  · left
    simp only [hv, if_true, Bool.not_true, true_or, and_self]
  · by_cases hs : acc.1.contains c.key = true
    · left
      have hin : c.key ∈ acc.1 := by simpa using hs
      simp [hv, hs, hin]
    · right
      have hnin : c.key ∉ acc.1 := by simpa using hs
      simp [hv, hs, hnin]

theorem removeDuplicates_foldl (cs : List ProcessCandidate) (seen : List String)
    (unique : List ProcessCandidate) :
    ∃ kept : List ProcessCandidate,
      (cs.foldl removeDuplicatesStep (seen, unique)).2 = unique ++ kept
      ∧ (cs.foldl removeDuplicatesStep (seen, unique)).1 = (kept.map ProcessCandidate.key).reverse ++ seen
      ∧ kept.Sublist (cs.filter ProcessCandidate.valid)
      ∧ (∀ c ∈ kept, c.key ∉ seen)
      ∧ (kept.map ProcessCandidate.key).Nodup
      ∧ (∀ c ∈ cs, c.valid = true →
          c.key ∈ seen ∨ c.key ∈ kept.map ProcessCandidate.key) := by
  induction cs generalizing seen unique with
  | nil =>
    exact ⟨[], by simp, by simp, by simp, by simp, by simp, by simp⟩
  | cons c rest ih =>
    rw [List.foldl_cons]
    rcases removeDuplicatesStep_cases (seen, unique) c with ⟨heq, hwhy⟩ | ⟨heq, hv, hns⟩
    · rw [heq]
      obtain ⟨kept, k1, k2, k3, k4, k5, k6⟩ := ih seen unique
      refine ⟨kept, k1, k2, ?_, k4, k5, ?_⟩
      · rcases hwhy with hinv | _
        · rw [List.filter_cons_of_neg (by simp [hinv])]
          exact k3
        · by_cases hcv : c.valid = true
          · rw [List.filter_cons_of_pos hcv]
            exact List.Sublist.cons _ k3
          · rw [List.filter_cons_of_neg hcv]
            exact k3
      · intro d hd hdv
        rcases List.mem_cons.mp hd with hdc | hdr
        · rw [hdc]
          rcases hwhy with hinv | hin
          · rw [hdc, hinv] at hdv; cases hdv
          · exact Or.inl hin
        · exact k6 d hdr hdv
    · rw [heq]
      obtain ⟨kept, k1, k2, k3, k4, k5, k6⟩ := ih (c.key :: seen) (unique ++ [c])
      refine ⟨c :: kept, ?_, ?_, ?_, ?_, ?_, ?_⟩
      · rw [k1]; simp
      · rw [k2]; simp
      · rw [List.filter_cons_of_pos hv]
        exact List.Sublist.cons₂ _ k3
      · intro d hd
        rcases List.mem_cons.mp hd with hdc | hdr
        · rw [hdc]; exact hns
        · intro hin
          exact k4 d hdr (List.mem_cons_of_mem _ hin)
      · rw [List.map_cons, List.nodup_cons]
        refine ⟨?_, k5⟩
        intro hin
        obtain ⟨d, hd, hdk⟩ := List.mem_map.mp hin
        exact k4 d hd (by rw [hdk]; exact List.mem_cons_self _ _)
      · intro d hd hdv
        rcases List.mem_cons.mp hd with hdc | hdr
        · right
          rw [hdc]; simp
        · rcases k6 d hdr hdv with h1 | h2
          · rcases List.mem_cons.mp h1 with h1a | h1b
            · right
              rw [h1a]; simp
            · exact Or.inl h1b
          · right
            rw [List.map_cons]
            exact List.mem_cons_of_mem _ h2

/-- What `removeDuplicates` does: its output is a sublist of the valid
candidates, in the order of the input; no two kept candidates have the same
key string `Name + ":" + Command`; and the key of every valid candidate of the
input is the key of a kept one. -/
theorem removeDuplicates_by_key (cs : List ProcessCandidate) :
    (removeDuplicates cs).Sublist (cs.filter ProcessCandidate.valid)
    ∧ ((removeDuplicates cs).map ProcessCandidate.key).Nodup
    ∧ (∀ c ∈ cs, c.valid = true →
        c.key ∈ (removeDuplicates cs).map ProcessCandidate.key) := by
  obtain ⟨kept, k1, _, k3, _, k5, k6⟩ := removeDuplicates_foldl cs [] []
  unfold removeDuplicates
  rw [k1, List.nil_append]
  refine ⟨k3, k5, ?_⟩
  intro c hc hv
  rcases k6 c hc hv with h | h
  · cases h
  · exact h

/-- C20 at the failing input: two candidates that pass the validation and
differ in `Name` and in `Command`, `nginx: worker` with `start` and `nginx`
with ` worker:start`, have the same key string `nginx: worker:start`;
`removeDuplicates` keeps the first and drops the second. -/
theorem colon_key_collision :
    colonNameCandidate.valid = true
    ∧ colonCommandCandidate.valid = true
    ∧ colonNameCandidate.Name ≠ colonCommandCandidate.Name
    ∧ colonNameCandidate.Command ≠ colonCommandCandidate.Command
    ∧ colonNameCandidate.key = colonCommandCandidate.key
    ∧ removeDuplicates [colonNameCandidate, colonCommandCandidate] = [colonNameCandidate]
    ∧ colonCommandCandidate ∉ removeDuplicates [colonNameCandidate, colonCommandCandidate]
    ∧ removeDuplicates [colonCommandCandidate] = [colonCommandCandidate] := by
  decide

/-! ## C21: the command written by `saveConfiguration` -/

theorem appendEscapedRune_ascii (table : Char → Bool) (c : Char)
    (h : 32 ≤ c.toNat ∧ c.toNat ≤ 126) :
    appendEscapedRune table c = if c = dquote ∨ c = backslash then [backslash, c] else [c] := by
  have hp : IsPrint table c = true := by
    unfold IsPrint
    have h255 : c.toNat ≤ 255 := by omega
    rw [if_pos h255]
    simp only [Bool.or_eq_true, Bool.and_eq_true, decide_eq_true_eq]
    exact Or.inl h
  unfold appendEscapedRune
  by_cases hq : c = dquote ∨ c = backslash
  · rw [if_pos hq, if_pos hq]
  · rw [if_neg hq, if_neg hq, if_pos hp]

theorem scanStep_plain (out : List Char) (c : Char) (h1 : c ≠ dquote) (h2 : c ≠ backslash)
    (h3 : 32 ≤ c.toNat) :
    scanStep { mode := ScanMode.plain, out := out } c
      = { mode := ScanMode.plain, out := out ++ [c] } := by
  have h10 : ¬ (c.toNat = 10 ∨ c.toNat = 13) := by omega
  unfold scanStep
  simp only [h1, h2, h10, if_false]

theorem scanStep_escaped (out : List Char) (c : Char) (h : c = dquote ∨ c = backslash) :
    scanStep (scanStep { mode := ScanMode.plain, out := out } backslash) c
      = { mode := ScanMode.plain, out := out ++ [c] } := by
  have hb : scanStep { mode := ScanMode.plain, out := out } backslash
      = { mode := ScanMode.escape, out := out } := by
    have hb1 : backslash ≠ dquote := by decide
    have hb2 : ¬ (backslash.toNat = 10 ∨ backslash.toNat = 13) := by decide
    unfold scanStep
    simp only [hb1, hb2, if_false, if_true]
  rw [hb]
  unfold scanStep
  rcases h with h | h
  · subst h
    have e1 : dquote ≠ 'x' := by decide
    have e2 : dquote ≠ 'u' := by decide
    have e3 : dquote ≠ 'U' := by decide
    have e4 : yamlEscape dquote = some dquote := by decide
    simp only [e1, e2, e3, e4, if_false]
  · subst h
    have e1 : backslash ≠ 'x' := by decide
    have e2 : backslash ≠ 'u' := by decide
    have e3 : backslash ≠ 'U' := by decide
    have e4 : yamlEscape backslash = some backslash := by decide
    simp only [e1, e2, e3, e4, if_false]

theorem foldl_scanStep_quote (table : Char → Bool) (cs : List Char)
    (h : ∀ c ∈ cs, 32 ≤ c.toNat ∧ c.toNat ≤ 126) (out : List Char) :
    (cs.map (appendEscapedRune table)).flatten.foldl scanStep
        { mode := ScanMode.plain, out := out }
      = { mode := ScanMode.plain, out := out ++ cs } := by
  induction cs generalizing out with
  | nil => simp
  | cons c rest ih =>
    have hc := h c (List.mem_cons_self _ _)
    have ih' := ih (fun d hd => h d (List.mem_cons_of_mem _ hd))
    rw [List.map_cons, List.flatten_cons, List.foldl_append,
      appendEscapedRune_ascii table c hc]
    by_cases hq : c = dquote ∨ c = backslash
    · rw [if_pos hq]
      simp only [List.foldl_cons, List.foldl_nil]
      rw [scanStep_escaped out c hq, ih' (out ++ [c])]
      simp
    · rw [if_neg hq]
      have hq' : c ≠ dquote ∧ c ≠ backslash :=
        ⟨fun hh => hq (Or.inl hh), fun hh => hq (Or.inr hh)⟩
      simp only [List.foldl_cons, List.foldl_nil]
      rw [scanStep_plain out c hq'.1 hq'.2 hc.1, ih' (out ++ [c])]
      simp

theorem scanDoubleQuoted_quote (table : Char → Bool) (cs : List Char)
    (h : ∀ c ∈ cs, 32 ≤ c.toNat ∧ c.toNat ≤ 126) :
    scanDoubleQuoted ((cs.map (appendEscapedRune table)).flatten ++ [dquote]) = some cs := by
  have hf : ((cs.map (appendEscapedRune table)).flatten ++ [dquote]).foldl scanStep
      { mode := ScanMode.plain, out := [] } = { mode := ScanMode.closed, out := cs } := by
    rw [List.foldl_append, foldl_scanStep_quote table cs h []]
    simp only [List.foldl_cons, List.foldl_nil, List.nil_append]
    unfold scanStep
    simp only [if_true]
  unfold scanDoubleQuoted
  rw [hf]
  simp only [if_true]

/-- A string of printable ASCII characters written with `%q` is read back by
the loader as it was: the round trip of `name` and `log_file`. -/
theorem quote_round_trip (table : Char → Bool) (s : String)
    (h : ∀ c ∈ s.toList, 32 ≤ c.toNat ∧ c.toNat ≤ 126) :
    decodeDoubleQuoted (Quote table s) = some s := by
  have hq : (Quote table s).toList
      = dquote :: ((s.toList.map (appendEscapedRune table)).flatten ++ [dquote]) := rfl
  unfold decodeDoubleQuoted
  rw [hq]
  simp only [if_true]
  rw [scanDoubleQuoted_quote table s.toList h]
  rfl

theorem safeCommand_ascii (command : String)
    (h : ∀ c ∈ command.toList, 32 ≤ c.toNat ∧ c.toNat ≤ 126) :
    ∀ c ∈ (safeCommand command).toList, 32 ≤ c.toNat ∧ c.toNat ≤ 126 := by
  intro c hc
  have hs : (safeCommand command).toList
      = (command.toList.map
          (fun c => if c = dquote then [backslash, dquote] else [c])).flatten := rfl
  rw [hs] at hc
  simp only [List.mem_flatten, List.mem_map] at hc
  obtain ⟨l, ⟨d, hd, hl⟩, hcl⟩ := hc
  subst hl
  by_cases hq : d = dquote
  · simp only [hq, if_true, List.mem_cons, List.mem_singleton, List.not_mem_nil, or_false] at hcl
    rcases hcl with hcl | hcl <;> rw [hcl] <;> decide
  · simp only [hq, if_false, List.mem_singleton] at hcl
    rw [hcl]
    exact h d hd

/-- What the loader reads back for the command of a saved entry, for a
command of printable ASCII characters: the command with a backslash put before
every double quote. -/
theorem saved_command_decodes (table : Char → Bool) (config : ProcessConfig)
    (h : ∀ c ∈ config.Command.toList, 32 ≤ c.toNat ∧ c.toNat ≤ 126) :
    decodeDoubleQuoted (saveEntry table config).command = some (safeCommand config.Command) :=
  quote_round_trip table (safeCommand config.Command) (safeCommand_ascii config.Command h)

/-- C21 at the failing input: the entry with the command `echo "hi"`.  Whatever
the printing table, `saveConfiguration` writes the command scalar
`"echo \\\"hi\\\""`; the loader decodes it to `echo \"hi\"`, which is
`safeCommand` and not the command: each double quote has gained a backslash.
The name, written with `%q` alone, comes back unchanged, and so would the
command. -/
theorem quoted_command_gains_backslashes (table : Char → Bool) :
    decodeDoubleQuoted (saveEntry table echoEntry).command = some (safeCommand echoCommand)
    ∧ decodeDoubleQuoted (saveEntry table echoEntry).command ≠ some echoEntry.Command
    ∧ (safeCommand echoCommand).length = echoCommand.length + 2
    ∧ (saveConfiguration table [echoEntry]).map (fun e => decodeDoubleQuoted e.command)
        ≠ [some echoEntry.Command]
    ∧ decodeDoubleQuoted (saveEntry table echoEntry).name = some echoEntry.Name
    ∧ decodeDoubleQuoted (saveEntry table echoEntry).logFile = some echoEntry.LogFile
    ∧ decodeDoubleQuoted (Quote table echoEntry.Command) = some echoEntry.Command := by
  have hcmd : ∀ c ∈ echoEntry.Command.toList, 32 ≤ c.toNat ∧ c.toNat ≤ 126 := by decide
  have h1 := saved_command_decodes table echoEntry hcmd
  have hne : safeCommand echoCommand ≠ echoEntry.Command := by decide
  have h2 : decodeDoubleQuoted (saveEntry table echoEntry).command ≠ some echoEntry.Command := by
    rw [h1]
    intro hh
    exact hne (Option.some.inj hh)
  refine ⟨h1, h2, by decide, ?_, ?_, ?_, ?_⟩
  · intro hh
    unfold saveConfiguration at hh
    simp only [List.map_cons, List.map_nil, List.cons.injEq, and_true] at hh
    exact h2 hh
  · exact quote_round_trip table echoEntry.Name (by decide)
  · exact quote_round_trip table echoEntry.LogFile (by decide)
  · exact quote_round_trip table echoEntry.Command hcmd

/-! ## C7: the tick after an external kill -/

end Watchdog
